import Mathlib

/-!
Verification of the website-to-codebase generator.

This file gives a shallow embedding, in Lean 4, of the program's data model
and operations and proves properties about them:

* `src/lib/ai/validate-imports.ts` — the import-resolution pass
  (`validateImports`, `extractImports`, `fileExists`, `isSafeImport`,
  `validateImportsEnhanced`).
* the Zod-based validator — signature/pattern checks and the auto-fix pass
  (`validateComponentSignatures`, `autoFixGeneratedCode`,
  `validateGeneratedCodebase`, `validateAndFixCodebase`).
* `src/app/api/fetch-website/route.ts` — the extraction engine
  (`parseWebsiteContent`, `detectSectionType`, `extractColorsFromAssets`,
  `generateMockContent`, `normalizeUrl`), modelled over an explicit DOM tree
  (the parse produced by the external HTML parser).
* `src/lib/codebase-generator.tsx` — the synthesis engine (`generateCodebase`).

JavaScript strings are modelled as Lean `String` (a list of characters);
machine regular expressions are modelled by explicit character scanners
that implement the exact regular expressions of the source.  Characters the
embedding needs symbolically are named below; in string literals they are
written with `\xNN` escapes.
-/

/-- The single-quote character `'` (U+0027). -/
def squote : Char := Char.ofNat 39

/-- The double-quote character (U+0022). -/
def dquote : Char := Char.ofNat 34

/-- The opening curly brace (U+007B). -/
def lbrace : Char := Char.ofNat 123

/-- The closing curly brace (U+007D). -/
def rbrace : Char := Char.ofNat 125

/-- JavaScript's `\s` character class, restricted to the ASCII whitespace
characters that can occur in the generated artifacts: space, tab, newline,
carriage return, vertical tab, form feed. -/
def jsWS (c : Char) : Bool :=
  c = ' ' || c = '\t' || c = '\n' || c = '\r' || c = '\x0b' || c = '\x0c'

/-- `containsSub pat l` decides whether `pat` occurs as a contiguous
substring of `l`; this is JavaScript's `String.prototype.includes`. -/
def containsSub (pat : List Char) : List Char → Bool
  | [] => pat.isPrefixOf ([] : List Char)
  | c :: t => pat.isPrefixOf (c :: t) || containsSub pat t

/-- `replaceFirstL pat rep l` replaces the first (leftmost) occurrence of
`pat` in `l` by `rep`, and is the identity when `pat` does not occur; this
is JavaScript's `String.prototype.replace` with a string pattern, which
substitutes only the first match. -/
def replaceFirstL (pat rep : List Char) : List Char → List Char
  | [] => []
  | c :: t =>
    if pat.isPrefixOf (c :: t) then rep ++ (c :: t).drop pat.length
    else c :: replaceFirstL pat rep t

/-- Fuel-indexed left-to-right global replacement: every step consumes at
least one character, so `l.length` fuel always suffices. -/
def replaceAllGo (pat rep : List Char) : Nat → List Char → List Char
  | 0, l => l
  | _ + 1, [] => []
  | fuel + 1, c :: t =>
    if pat.isPrefixOf (c :: t) ∧ pat ≠ [] then
      rep ++ replaceAllGo pat rep fuel ((c :: t).drop pat.length)
    else c :: replaceAllGo pat rep fuel t

/-- `replaceAllL pat rep l` replaces every occurrence of a non-empty `pat`
in `l` by `rep`, scanning left to right without rescanning the replacement;
this is JavaScript's `String.prototype.replace` with a `/g` regular
expression whose pattern is the literal `pat`. -/
def replaceAllL (pat rep : List Char) (l : List Char) : List Char :=
  replaceAllGo pat rep l.length l

/-- String wrapper for `containsSub` (JavaScript `s.includes(pat)`). -/
def sContains (s pat : String) : Bool := containsSub pat.data s.data

/-- String wrapper: JavaScript `s.startsWith(pre)`. -/
def sStartsWith (s pre : String) : Bool := pre.data.isPrefixOf s.data

/-- String wrapper: JavaScript `s.endsWith(suf)`. -/
def sEndsWith (s suf : String) : Bool := suf.data.isSuffixOf s.data

/-- String wrapper for `replaceFirstL` (JavaScript `s.replace(pat, rep)`
with a string pattern). -/
def sReplaceFirst (s pat rep : String) : String := ⟨replaceFirstL pat.data rep.data s.data⟩

/-- String wrapper for `replaceAllL` (JavaScript `s.replace(/pat/g, rep)`
with a literal pattern). -/
def sReplaceAll (s pat rep : String) : String := ⟨replaceAllL pat.data rep.data s.data⟩

/-- JavaScript `String.prototype.trim`: strip leading and trailing
whitespace. -/
def sTrim (s : String) : String :=
  ⟨((s.data.dropWhile jsWS).reverse.dropWhile jsWS).reverse⟩

/-- Fuel-indexed order-preserving de-duplication; every step strictly
shrinks the list, so `l.length` fuel always suffices. -/
def dedupGo [DecidableEq α] : Nat → List α → List α
  | 0, l => l
  | _ + 1, [] => []
  | fuel + 1, a :: t => a :: dedupGo fuel (t.filter (fun b => b ≠ a))

/-- Order-preserving de-duplication keeping the first occurrence of each
element: the semantics of iterating JavaScript's `new Set(xs)`. -/
def dedupKeepFirst [DecidableEq α] (l : List α) : List α :=
  dedupGo l.length l

-- ======================= basic lemmas about the string utilities ==========

theorem containsSub_of_isPrefixOf {pat l : List Char} (h : pat.isPrefixOf l = true) :
    containsSub pat l = true := by
  cases l with
  | nil => simpa [containsSub] using h
  | cons c t => simp [containsSub, h]

theorem containsSub_append_left (pat l r : List Char) (h : containsSub pat l = true) :
    containsSub pat (l ++ r) = true := by
  induction l with
  | nil =>
    have hp : pat = [] := by
      cases pat with
      | nil => rfl
      | cons p ps => simp [containsSub, List.isPrefixOf] at h
    subst hp
    cases r with
    | nil => simp [containsSub]
    | cons c t => simp [containsSub, List.isPrefixOf]
  | cons c t ih =>
    simp only [containsSub, Bool.or_eq_true] at h
    simp only [List.cons_append, containsSub, Bool.or_eq_true]
    rcases h with h | h
    · refine Or.inl ?_
      exact (List.isPrefixOf_iff_prefix).2
        (((List.isPrefixOf_iff_prefix).1 h).trans
          (List.prefix_append (c :: t) r))
    · exact Or.inr (ih h)

theorem containsSub_cons (pat : List Char) (c : Char) (t : List Char)
    (h : containsSub pat t = true) : containsSub pat (c :: t) = true := by
  simp only [containsSub, Bool.or_eq_true]
  exact Or.inr h

theorem containsSub_prefix_self (pat r : List Char) :
    containsSub pat (pat ++ r) = true := by
  apply containsSub_of_isPrefixOf
  exact (List.isPrefixOf_iff_prefix).2 (List.prefix_append _ _)

/-- If the pattern occurs in `l`, then after the first-occurrence
replacement the replacement text occurs in the result. -/
theorem containsSub_rep_replaceFirstL {pat : List Char} (rep : List Char) {l : List Char}
    (hne : pat ≠ []) (h : containsSub pat l = true) :
    containsSub rep (replaceFirstL pat rep l) = true := by
  induction l with
  | nil =>
    exfalso
    cases pat with
    | nil => exact hne rfl
    | cons p ps => simp [containsSub, List.isPrefixOf] at h
  | cons c t ih =>
    cases hp : pat.isPrefixOf (c :: t) with
    | true =>
      simp only [replaceFirstL, hp, if_pos]
      exact containsSub_prefix_self rep _
    | false =>
      simp only [containsSub, hp, Bool.false_or] at h
      simp only [replaceFirstL, hp, Bool.false_eq_true, if_false]
      exact containsSub_cons rep c _ (ih h)

/-- `replaceFirstL` is the identity when the pattern does not occur. -/
theorem replaceFirstL_of_not_contains {pat rep l : List Char}
    (h : containsSub pat l = false) : replaceFirstL pat rep l = l := by
  induction l with
  | nil => rfl
  | cons c t ih =>
    simp only [containsSub, Bool.or_eq_false_iff] at h
    simp only [replaceFirstL, h.1]
    simp only [Bool.false_eq_true, if_false, List.cons.injEq, true_and]
    exact ih h.2

/-- `replaceAllGo` is the identity when the pattern does not occur,
whatever the fuel. -/
theorem replaceAllGo_of_not_contains {pat rep : List Char} :
    ∀ (fuel : Nat) (l : List Char), containsSub pat l = false →
      replaceAllGo pat rep fuel l = l
  | 0, _, _ => rfl
  | _ + 1, [], _ => rfl
  | fuel + 1, c :: t, h => by
    simp only [containsSub, Bool.or_eq_false_iff] at h
    rw [replaceAllGo, if_neg, replaceAllGo_of_not_contains fuel t h.2]
    rintro ⟨h1, -⟩
    rw [h.1] at h1
    exact Bool.false_ne_true h1

/-- `replaceAllL` is the identity when the pattern does not occur. -/
theorem replaceAllL_of_not_contains {pat rep l : List Char}
    (h : containsSub pat l = false) : replaceAllL pat rep l = l :=
  replaceAllGo_of_not_contains l.length l h

/-- If the replacement text already occurs, it still occurs after a
first-occurrence replacement (either the pattern is absent and the string
is unchanged, or the replacement is freshly inserted). -/
theorem containsSub_rep_replaceFirstL_preserved {pat : List Char} (rep : List Char)
    {l : List Char} (hne : pat ≠ []) (h : containsSub rep l = true) :
    containsSub rep (replaceFirstL pat rep l) = true := by
  cases hc : containsSub pat l with
  | true => exact containsSub_rep_replaceFirstL rep hne hc
  | false => rw [replaceFirstL_of_not_contains hc]; exact h

theorem mem_dedupGo {α : Type} [DecidableEq α] {a : α} :
    ∀ (fuel : Nat) (l : List α), a ∈ dedupGo fuel l → a ∈ l
  | 0, _, h => h
  | _ + 1, [], h => h
  | fuel + 1, b :: t, h => by
    rw [dedupGo] at h
    rcases List.mem_cons.1 h with h | h
    · exact h ▸ List.mem_cons_self _ _
    · exact List.mem_cons_of_mem _ (List.mem_of_mem_filter (mem_dedupGo fuel _ h))

theorem nodup_dedupGo {α : Type} [DecidableEq α] :
    ∀ (fuel : Nat) (l : List α), l.length ≤ fuel → (dedupGo fuel l).Nodup
  | 0, l, h => by
    have hl : l = [] := List.eq_nil_of_length_eq_zero (Nat.le_zero.1 h)
    subst hl
    exact List.nodup_nil
  | _ + 1, [], _ => List.nodup_nil
  | fuel + 1, b :: t, h => by
    rw [dedupGo]
    refine List.nodup_cons.2 ⟨?_, ?_⟩
    · intro hmem
      have := List.of_mem_filter (mem_dedupGo fuel _ hmem)
      simp at this
    · refine nodup_dedupGo fuel _ ?_
      have := List.length_filter_le (fun b2 => b2 ≠ b) t
      simp only [List.length_cons] at h
      omega

theorem nodup_dedupKeepFirst {α : Type} [DecidableEq α] (l : List α) :
    (dedupKeepFirst l).Nodup :=
  nodup_dedupGo l.length l (Nat.le_refl _)

-- ======================= src/lib/ai/validate-imports.ts ===================

/-- `GeneratedFile` from `validate-imports.ts`: one `(path, content)`
artifact of the synthesized project. -/
structure GeneratedFile where
  path : String
  content : String
deriving DecidableEq, Repr

/-- The `severity` field of a validation diagnostic: `"error" | "warning"`. -/
inductive Severity where
  | error
  | warning
deriving DecidableEq, Repr

/-- `ValidationError` from `validate-imports.ts`. -/
structure ValidationError where
  file : String
  line : Option Nat := none
  error : String
  severity : Severity
deriving DecidableEq, Repr

/-- `ValidationResult` from `validate-imports.ts`. -/
structure ValidationResult where
  isValid : Bool
  errors : List ValidationError
  warnings : List ValidationError
deriving DecidableEq, Repr

/-- Is this character a quote (`['"]` in the import regular expression)? -/
def isQuote (c : Char) : Bool := c = squote || c = dquote

/-- The capture class `[^'"]` of the import regular expression. -/
def notQuote (c : Char) : Bool := !(isQuote c)

/-- The alternation branch `{[^}]*}` of the import regular expression:
an opening brace, any run of non-brace characters, a closing brace.
Returns the remainder on success. -/
def matchBraceGroup : List Char → Option (List Char)
  | [] => none
  | c :: t =>
    if c = lbrace then
      match t.dropWhile (fun d => d ≠ rbrace) with
      | d :: rest => if d = rbrace then some rest else none
      | [] => none
    else none

/-- The tail `\s+from\s+['"]([^'"]+)['"]` of the import regular
expression: mandatory whitespace, the literal `from`, mandatory
whitespace, a quoted non-empty module path.  Returns the captured path and
the remainder after the closing quote. -/
def matchFromClause (l : List Char) : Option (List Char × List Char) :=
  if (l.takeWhile jsWS).isEmpty then none
  else
    let r1 := l.dropWhile jsWS
    if ("from".data).isPrefixOf r1 then
      let r2 := r1.drop 4
      if (r2.takeWhile jsWS).isEmpty then none
      else
        match r2.dropWhile jsWS with
        | q :: r4 =>
          if isQuote q then
            let cap := r4.takeWhile notQuote
            if cap.isEmpty then none
            else
              match r4.dropWhile notQuote with
              | q2 :: rest => if isQuote q2 then some (cap, rest) else none
              | [] => none
          else none
        | [] => none
    else none

/-- The lazy alternation branch `[^from]*?` followed by the `from` clause:
try the clause at the current position; otherwise consume one character
that is none of `f`, `r`, `o`, `m` and continue.  (The lazy class cannot
cross any of the letters of `from`, so the matching `from` keyword, when
one exists, is unique — which makes this deterministic scan equivalent to
the regular expression's backtracking search.) -/
def lazyScan (l : List Char) : Option (List Char × List Char) :=
  match matchFromClause l with
  | some r => some r
  | none =>
    match l with
    | [] => none
    | c :: t =>
      if c = 'f' || c = 'r' || c = 'o' || c = 'm' then none else lazyScan t

/-- Attempt the regular expression
`import\s+(?:{[^}]*}|[^from]*?)\s+from\s+['"]([^'"]+)['"]` of
`extractImports` at the head of `l`.  On success returns the captured
module path and the remainder of the input after the match. -/
def matchImportAt (l : List Char) : Option (List Char × List Char) :=
  if ("import".data).isPrefixOf l then
    let r0 := l.drop 6
    match r0 with
    | c :: t =>
      if jsWS c then
        let r1 := r0.dropWhile jsWS
        match matchBraceGroup r1 with
        | some r2 =>
          match matchFromClause r2 with
          | some res => some res
          | none => lazyScan t
        | none => lazyScan t
      else none
    | [] => none
  else none

/-- Repeated application of the import regular expression with the `g`
flag: scan left to right, restarting after each match (`lastIndex`).
`fuel` bounds the recursion; every step consumes at least one character,
so `l.length` fuel always suffices. -/
def scanImports : Nat → List Char → List (List Char)
  | 0, _ => []
  | _ + 1, [] => []
  | fuel + 1, c :: t =>
    match matchImportAt (c :: t) with
    | some (cap, rest) => cap :: scanImports fuel rest
    | none => scanImports fuel t

/-- `extractImports` from `validate-imports.ts`: all module paths captured
by the import regular expression, except those starting with
`node_modules` or `.` (relative imports). -/
def extractImports (content : String) : List String :=
  (scanImports content.data.length content.data).filterMap (fun cap =>
    let p : String := ⟨cap⟩
    if sStartsWith p "node_modules" || sStartsWith p "." then none else some p)

/-- One step of JavaScript `Map.prototype.set` on an association list:
overwrite the value when the key is present, else append. -/
def mapSet (m : List (String × String)) (k v : String) : List (String × String) :=
  if m.any (fun kv => kv.1 = k) then
    m.map (fun kv => if kv.1 = k then (k, v) else kv)
  else m ++ [(k, v)]

/-- The `fileMap` built by `validateImports` from the artifact list. -/
def buildFileMap (files : List GeneratedFile) : List (String × String) :=
  files.foldl (fun m f => mapSet m f.path f.content) []

/-- The `@/` alias expansion inside `fileExists`. -/
def expandAlias (importPath : String) : String :=
  if sStartsWith importPath "@/" then "src/" ++ (⟨importPath.data.drop 2⟩ : String)
  else importPath

/-- The `possiblePaths` suffix variants of `fileExists`: the literal path,
extension variants, and index variants. -/
def possiblePaths (filePath : String) : List String :=
  [filePath,
   filePath ++ ".ts",
   filePath ++ ".tsx",
   filePath ++ ".js",
   filePath ++ ".jsx",
   filePath ++ "/index.ts",
   filePath ++ "/index.tsx",
   filePath ++ "/index.js",
   filePath ++ "/index.jsx"]

/-- `fileExists` from `validate-imports.ts`. -/
def fileExists (importPath : String) (fileMap : List (String × String)) : Bool :=
  (possiblePaths (expandAlias importPath)).any (fun p => fileMap.any (fun kv => kv.1 = p))

/-- The error message pushed by `validateImports` for an unresolved
module (the source interpolates the import's `path` and `name`, which
`extractImports` always sets to the same string). -/
def missingModuleMsg (imp : String) : String :=
  "Cannot find module \x27" ++ imp ++ "\x27 (imported as \x27" ++ imp ++ "\x27)"

/-- `validateImports` from `validate-imports.ts`: for every file of the
artifact map, every extracted import that does not resolve against the
map becomes an error naming the file and the import path.  The pass reads
the artifacts and never changes them (in this embedding it returns only
the report). -/
def validateImports (generatedFiles : List GeneratedFile) : ValidationResult :=
  let fileMap := buildFileMap generatedFiles
  let errors := fileMap.flatMap (fun fc =>
    (extractImports fc.2).filterMap (fun imp =>
      if fileExists imp fileMap then none
      else some { file := fc.1, error := missingModuleMsg imp, severity := .error }))
  { isValid := errors.length == 0, errors := errors, warnings := [] }

/-- The `SAFE_IMPORTS` allow-list of third-party package-name prefixes. -/
def SAFE_IMPORTS : List String :=
  ["react", "react-dom", "react-router-dom", "next", "next/", "axios", "clsx", "cn",
   "tailwind-merge", "class-variance-authority", "@radix-ui", "zustand", "date-fns",
   "zod", "lodash", "uuid", "jszip", "geist"]

/-- `isSafeImport` from `validate-imports.ts`: does the argument start
with one of the allow-listed package-name prefixes? -/
def isSafeImport (importPath : String) : Bool :=
  SAFE_IMPORTS.any (fun safe => sStartsWith importPath safe)

/-- `validateImportsEnhanced` from `validate-imports.ts`: run
`validateImports`, then drop every error `e` with `isSafeImport(e.error)`
— note the source passes the error *message*, not the import path, to the
filter — and recompute `isValid`. -/
def validateImportsEnhanced (generatedFiles : List GeneratedFile) : ValidationResult :=
  let result := validateImports generatedFiles
  let errors := result.errors.filter (fun e => !(isSafeImport e.error))
  { result with errors := errors, isValid := errors.length == 0 }

-- a quick concrete smoke test of the import scanner
example :
    extractImports "import React from \x27react\x27" = ["react"] := by decide

example :
    extractImports "import \x7b Button \x7d from \x27@/components/common\x27" =
      ["@/components/common"] := by decide

-- ======================= the Zod-based validator ==========================

/-- `TypeError` from the Zod validation module: a diagnostic with an
optional line number and an optional human-readable suggestion. -/
structure TypeError where
  file : String
  line : Option Nat := none
  error : String
  severity : Severity
  suggestion : Option String := none
deriving DecidableEq, Repr

/-- `ValidationResult` from the Zod validation module (distinct from
the import-pass result: it additionally carries `typeChecksPassed` and
`syntaxErrors`). -/
structure ZodValidationResult where
  isValid : Bool
  errors : List TypeError
  warnings : List TypeError
  typeChecksPassed : Bool
  syntaxErrors : List TypeError
deriving DecidableEq, Repr

/-- Split on a separator character: JavaScript `s.split(sep)`. -/
def splitOnCharL (sep : Char) : List Char → List (List Char)
  | [] => [[]]
  | c :: t =>
    if c = sep then [] :: splitOnCharL sep t
    else
      match splitOnCharL sep t with
      | h :: r => (c :: h) :: r
      | [] => [[c]]

/-- JavaScript `content.split('\n')`. -/
def splitLines (s : String) : List String :=
  (splitOnCharL '\n' s.data).map (fun l => ⟨l⟩)

/-- `validateContentExtraction`: advisory checks that the extracted
content actually made it into the entry page and the header.  (The
source also computes a `hasSectionImports` flag that it never uses.) -/
def validateContentExtraction (generatedFiles : List GeneratedFile) : List TypeError :=
  let homeErrors :=
    match generatedFiles.find? (fun f => sContains f.path "Home.tsx") with
    | some homeFile =>
      let hasSectionRenders := sContains homeFile.content "<Section"
      let hasPlaceholder := sContains homeFile.content "No items to display"
          && !hasSectionRenders && !(sContains homeFile.content "<Section1")
      if hasPlaceholder then
        [{ file := "src/pages/Home.tsx",
           error := "Website content may not have been properly extracted - consider providing fallback content",
           severity := .warning,
           suggestion := some "Ensure the website is accessible and contains proper HTML structure (sections, headings, content)" }]
      else []
    | none => []
  let headerErrors :=
    match generatedFiles.find? (fun f => sContains f.path "Header.tsx") with
    | some headerFile =>
      if !(sContains headerFile.content "NavLink") then
        [{ file := "src/components/layout/Header.tsx",
           error := "No navigation items were extracted from the website",
           severity := .warning,
           suggestion := some "Navigation content might not have been detected - using defaults" }]
      else []
    | none => []
  homeErrors ++ headerErrors

/-- `validateTailwindClasses`: flag `ring-primary-500/20` per line, and a
`tailwind.config` whose `primary:` is not an object scale.  (The
`invalidPatterns` table at the top of the source function is dead code —
the loop uses the hard-coded checks below.) -/
def validateTailwindClasses (generatedFiles : List GeneratedFile) : List TypeError :=
  generatedFiles.flatMap (fun file =>
    let ringErrors :=
      if sContains file.content "ring-primary-500/20" then
        (splitLines file.content).enum.filterMap (fun li =>
          if sContains li.2 "ring-primary-500/20" then
            some { file := file.path, line := some (li.1 + 1),
                   error := "Invalid Tailwind class: ring-primary-500/20 - opacity modifiers not supported on custom colors",
                   severity := .error,
                   suggestion := some "Use ring-primary-500 without the /20 opacity modifier" }
          else none)
      else []
    let configErrors :=
      if sContains file.path "tailwind.config" then
        if !(sContains file.content "primary: \x7b") && sContains file.content "primary:" then
          [{ file := file.path,
             error := "Tailwind config: primary color must be defined as an object with scale (50, 100, 200...900)",
             severity := .error,
             suggestion := some "Define primary color with proper color scale: primary: \x7b 50: \"#...\", 100: \"#...\", ... \x7d" }]
        else []
      else []
    ringErrors ++ configErrors)

/-- Is this character an ASCII digit (`\d`)? -/
def isDigitCh (c : Char) : Bool := '0' ≤ c && c ≤ '9'

/-- After the literal `focus:ring-primary-`, parse `\d+\/\d+`; on success
return the first digit run and the remainder after the second. -/
def parseRingOpacityTail (r0 : List Char) : Option (List Char × List Char) :=
  let d1 := r0.takeWhile isDigitCh
  if d1.isEmpty then none
  else
    match r0.dropWhile isDigitCh with
    | s :: r2 =>
      if s = '/' then
        if (r2.takeWhile isDigitCh).isEmpty then none
        else some (d1, r2.dropWhile isDigitCh)
      else none
    | [] => none

/-- The regular expression `focus:ring-primary-\d+\/\d+` replaced
globally by the match with its trailing `/\d+` stripped (the second
rewrite of `autoFixTailwindClasses`).  Fuel-indexed scanner: every step
consumes at least one character. -/
def fixFocusGo : Nat → List Char → List Char
  | 0, l => l
  | _ + 1, [] => []
  | fuel + 1, c :: t =>
    if ("focus:ring-primary-".data).isPrefixOf (c :: t) then
      match parseRingOpacityTail ((c :: t).drop 19) with
      | some (d1, rest) => ("focus:ring-primary-".data ++ d1) ++ fixFocusGo fuel rest
      | none => c :: fixFocusGo fuel t
    else c :: fixFocusGo fuel t

/-- `fixFocusGo` is the identity when `focus:ring-primary-` does not
occur, whatever the fuel. -/
theorem fixFocusGo_of_not_contains :
    ∀ (fuel : Nat) (l : List Char),
      containsSub ("focus:ring-primary-".data) l = false → fixFocusGo fuel l = l
  | 0, _, _ => rfl
  | _ + 1, [], _ => rfl
  | fuel + 1, c :: t, h => by
    simp only [containsSub, Bool.or_eq_false_iff] at h
    rw [fixFocusGo, if_neg, fixFocusGo_of_not_contains fuel t h.2]
    intro h1
    rw [h.1] at h1
    exact Bool.false_ne_true h1

/-- The per-file rewrite of `autoFixTailwindClasses`: rewrite
`ring-primary-500/20` to `ring-primary-500` everywhere, then strip
opacity modifiers from `focus:ring-primary-\d+\/\d+` matches. -/
def twFixFile (file : GeneratedFile) : GeneratedFile :=
  let c1 := sReplaceAll file.content "ring-primary-500/20" "ring-primary-500"
  { file with content := ⟨fixFocusGo c1.data.length c1.data⟩ }

/-- `autoFixTailwindClasses`: the Tailwind rewrites applied to every
artifact. -/
def autoFixTailwindClasses (generatedFiles : List GeneratedFile) : List GeneratedFile :=
  generatedFiles.map twFixFile

/-- The literal object-call defect pattern `buttonVariants({ variant, size })`. -/
def btnObjCall : String := "buttonVariants(\x7b variant, size \x7d)"

/-- The no-space variant `buttonVariants({variant,size})`. -/
def btnObjCallNS : String := "buttonVariants(\x7bvariant,size\x7d)"

/-- The corrected positional call `buttonVariants(variant, size)`. -/
def btnPosCall : String := "buttonVariants(variant, size)"

/-- The positional declaration the detector looks for. -/
def btnDecl : String := "const buttonVariants = (variant: ButtonVariant, size: ButtonSize)"

/-- `validateComponentSignatures`, Button branch: on the first artifact
whose path mentions `Button.tsx`, report the object-call defect when an
object call and the positional declaration are present but the positional
call is not. -/
def buttonSignatureErrors (generatedFiles : List GeneratedFile) : List TypeError :=
  match generatedFiles.find? (fun f => sContains f.path "Button.tsx") with
  | some buttonFile =>
    if sContains buttonFile.content "buttonVariants(\x7b" && sContains buttonFile.content btnDecl then
      if !(sContains buttonFile.content btnPosCall) then
        [{ file := "src/components/common/Button.tsx", line := some 39,
           error := "buttonVariants expects 2 positional arguments (variant, size) but is being called with an object",
           severity := .error,
           suggestion := some "Change buttonVariants(\x7b variant, size \x7d) to buttonVariants(variant, size)" }]
      else []
    else []
  | none => []

/-- `validateComponentSignatures`, Card branch. -/
def cardSignatureErrors (generatedFiles : List GeneratedFile) : List TypeError :=
  match generatedFiles.find? (fun f => sContains f.path "Card.tsx") with
  | some cardFile =>
    if sContains cardFile.content "cardVariants(\x7b"
        && sContains cardFile.content "const cardVariants = (variant: CardVariant = " then
      if !(sContains cardFile.content "cardVariants(variant)") then
        [{ file := "src/components/common/Card.tsx", line := some 22,
           error := "cardVariants expects a CardVariant argument but is receiving an object \x7b variant \x7d",
           severity := .error,
           suggestion := some "Change cardVariants(\x7b variant \x7d) to cardVariants(variant)" }]
      else []
    else []
  | none => []

/-- `validateComponentSignatures`, Input branch. -/
def inputSignatureErrors (generatedFiles : List GeneratedFile) : List TypeError :=
  match generatedFiles.find? (fun f => sContains f.path "Input.tsx") with
  | some inputFile =>
    if sContains inputFile.content "inputVariants(\x7b"
        && sContains inputFile.content "const inputVariants = (size: InputSize = " then
      if !(sContains inputFile.content "inputVariants(inputSize)") then
        [{ file := "src/components/common/Input.tsx", line := some 40,
           error := "inputVariants expects a size argument but is receiving an object \x7b size: inputSize \x7d",
           severity := .error,
           suggestion := some "Change inputVariants(\x7b size: inputSize \x7d) to inputVariants(inputSize)" }]
      else []
    else []
  | none => []

/-- `validateComponentSignatures`: the Button, Card and Input signature
checks, in source order. -/
def validateComponentSignatures (generatedFiles : List GeneratedFile) : List TypeError :=
  buttonSignatureErrors generatedFiles ++ cardSignatureErrors generatedFiles
    ++ inputSignatureErrors generatedFiles

/-- `validateTypeScriptPatterns`: the function-parameter regular
expression scan of the source inspects its matches but pushes nothing;
the only diagnostics come from `context/` or `hooks/` files without an
`export`. -/
def validateTypeScriptPatterns (generatedFiles : List GeneratedFile) : List TypeError :=
  generatedFiles.flatMap (fun file =>
    if sEndsWith file.path ".tsx" || sEndsWith file.path ".ts" then
      if (sContains file.path "context/" || sContains file.path "hooks/")
          && !(sContains file.content "export") then
        [{ file := file.path,
           error := "Context or hook file missing export statement",
           severity := .error,
           suggestion := some "Add export keyword to main declaration" }]
      else []
    else [])

/-- `validateComponentPropUsage`: every branch of the source has an empty
body — the function always returns an empty error list. -/
def validateComponentPropUsage (_generatedFiles : List GeneratedFile) : List TypeError :=
  []

/-- The concatenated error list of `validateGeneratedCodebase`, in the
source's order. -/
def zodAllErrors (generatedFiles : List GeneratedFile) : List TypeError :=
  validateComponentSignatures generatedFiles ++ validateTypeScriptPatterns generatedFiles
    ++ validateComponentPropUsage generatedFiles ++ validateTailwindClasses generatedFiles
    ++ validateContentExtraction generatedFiles

/-- `validateGeneratedCodebase`: partition the collected diagnostics by
severity; `isValid` and `typeChecksPassed` are both the emptiness of the
severity-`error` partition. -/
def validateGeneratedCodebase (generatedFiles : List GeneratedFile) : ZodValidationResult :=
  { isValid := ((zodAllErrors generatedFiles).filter
      (fun e => e.severity == Severity.error)).length == 0,
    errors := (zodAllErrors generatedFiles).filter (fun e => e.severity == Severity.error),
    warnings := (zodAllErrors generatedFiles).filter (fun e => e.severity == Severity.warning),
    typeChecksPassed := ((zodAllErrors generatedFiles).filter
      (fun e => e.severity == Severity.error)).length == 0,
    syntaxErrors := (zodAllErrors generatedFiles).filter (fun e => sContains e.error "syntax") }

/-- The Button-file substitutions of `autoFixGeneratedCode` (JavaScript
`replace` with a string pattern substitutes only the first occurrence). -/
def autoFixButtonFile (content : String) : String :=
  sReplaceFirst (sReplaceFirst content btnObjCall btnPosCall) btnObjCallNS btnPosCall

/-- The Card-file substitutions of `autoFixGeneratedCode`. -/
def autoFixCardFile (content : String) : String :=
  sReplaceFirst (sReplaceFirst content "cardVariants(\x7b variant \x7d)" "cardVariants(variant)")
    "cardVariants(\x7bvariant\x7d)" "cardVariants(variant)"

/-- The Input-file substitutions of `autoFixGeneratedCode`. -/
def autoFixInputFile (content : String) : String :=
  sReplaceFirst (sReplaceFirst (sReplaceFirst content
      "inputVariants(\x7b size: inputSize \x7d)" "inputVariants(inputSize)")
    "inputVariants(\x7bsize: inputSize\x7d)" "inputVariants(inputSize)")
    "inputVariants(\x7b size \x7d)" "inputVariants(size)"

/-- The per-file object-call substitutions of `autoFixGeneratedCode`,
gated on the path. -/
def signatureFixFile (file : GeneratedFile) : GeneratedFile :=
  let c1 := if sContains file.path "Button.tsx" then autoFixButtonFile file.content
            else file.content
  let c2 := if sContains file.path "Card.tsx" then autoFixCardFile c1 else c1
  let c3 := if sContains file.path "Input.tsx" then autoFixInputFile c2 else c2
  { file with content := c3 }

/-- `autoFixGeneratedCode`: first the Tailwind fixes, then the per-file
object-call substitutions. -/
def autoFixGeneratedCode (generatedFiles : List GeneratedFile) : List GeneratedFile :=
  (autoFixTailwindClasses generatedFiles).map signatureFixFile

/-- The result record of `validateAndFixCodebase`. -/
structure FixResult where
  files : List GeneratedFile
  result : ZodValidationResult
deriving Repr

/-- `validateAndFixCodebase`: auto-fix the known issues, then validate the
fixed artifact set. -/
def validateAndFixCodebase (generatedFiles : List GeneratedFile) : FixResult :=
  let fixedFiles := autoFixGeneratedCode generatedFiles
  { files := fixedFiles, result := validateGeneratedCodebase fixedFiles }

-- ======================= theorems: validator claims =======================

/-- `find?` on a path-`includes` predicate commutes with a
path-preserving map of the artifact list. -/
theorem find?_path_map (needle : String) (g : GeneratedFile → GeneratedFile)
    (hg : ∀ f, (g f).path = f.path) :
    ∀ (l : List GeneratedFile),
      (l.map g).find? (fun f => sContains f.path needle)
        = (l.find? (fun f => sContains f.path needle)).map g
  | [] => rfl
  | f :: t => by
    simp only [List.map_cons, List.find?]
    rw [hg f]
    cases hp : sContains f.path needle with
    | true => rfl
    | false => exact find?_path_map needle g hg t

/-- The Tailwind fix is the identity on an artifact that triggers neither
rewrite. -/
theorem twFixFile_eq_self {f : GeneratedFile}
    (h1 : sContains f.content "ring-primary-500/20" = false)
    (h2 : sContains f.content "focus:ring-primary-" = false) :
    twFixFile f = f := by
  unfold twFixFile
  have e1 : sReplaceAll f.content "ring-primary-500/20" "ring-primary-500" = f.content := by
    show (⟨replaceAllL _ _ f.content.data⟩ : String) = f.content
    rw [replaceAllL, replaceAllGo_of_not_contains _ _ h1]
  rw [e1]
  show ({ f with content := ⟨fixFocusGo _ f.content.data⟩ } : GeneratedFile) = f
  rw [fixFocusGo_of_not_contains _ _ h2]

/-- **C10.** Every result of `validateGeneratedCodebase` satisfies:
`isValid` holds iff the `errors` list is empty, every entry of `errors`
has severity `error`, every entry of `warnings` has severity `warning`,
and `typeChecksPassed` equals `isValid`. -/
theorem c10_validation_result_invariants (generatedFiles : List GeneratedFile) :
    ((validateGeneratedCodebase generatedFiles).isValid = true ↔
        (validateGeneratedCodebase generatedFiles).errors = [])
      ∧ (∀ e ∈ (validateGeneratedCodebase generatedFiles).errors,
          e.severity = Severity.error)
      ∧ (∀ w ∈ (validateGeneratedCodebase generatedFiles).warnings,
          w.severity = Severity.warning)
      ∧ (validateGeneratedCodebase generatedFiles).typeChecksPassed =
          (validateGeneratedCodebase generatedFiles).isValid := by
  refine ⟨?_, ?_, ?_, rfl⟩
  · simp only [validateGeneratedCodebase, beq_iff_eq, List.length_eq_zero]
  · intro e he
    simp only [validateGeneratedCodebase, List.mem_filter, beq_iff_eq] at he
    exact he.2
  · intro w hw
    simp only [validateGeneratedCodebase, List.mem_filter, beq_iff_eq] at hw
    exact hw.2

/-- The single-artifact set whose only import is the allow-listed
package `react`. -/
def c1ReactImportFiles : List GeneratedFile :=
  [{ path := "src/App.tsx", content := "import React from \x27react\x27" }]

/-- **C1.** The claim says an import whose path matches the allow-list is
never reported by `validateImportsEnhanced`.  On the code, an artifact
that imports `react` — allow-listed, as the first conjunct shows — is still
reported as an unresolved-import error: the filter passes the error
*message* (which starts with `Cannot find module …`, so it matches no
package-name prefix) to `isSafeImport` instead of the import path.  This
contradicts the source's own intent (`// Filter out safe imports from
errors`). -/
theorem c1_allowlisted_import_still_reported :
    isSafeImport "react" = true
      ∧ isSafeImport (missingModuleMsg "react") = false
      ∧ (validateImportsEnhanced c1ReactImportFiles).errors
          = [{ file := "src/App.tsx", error := missingModuleMsg "react",
               severity := .error }]
      ∧ (validateImportsEnhanced c1ReactImportFiles).isValid = false := by
  refine ⟨by decide, by decide, by decide, by decide⟩

/-- A Button artifact in which the literal object-call defect occurs
twice (together with the positional declaration the detector looks
for). -/
def c2TwoDefects : List GeneratedFile :=
  [{ path := "src/components/common/Button.tsx",
     content := btnDecl ++ " => cn(a)\n" ++ btnObjCall ++ "\n" ++ btnObjCall }]

set_option maxRecDepth 16384 in
/-- **C2, counterexample.** The claim says `validateAndFix` removes the
literal pattern `buttonVariants({ variant, size })` from the artifacts it
returns.  When the pattern occurs twice, the returned artifacts still
contain it: JavaScript's `String.replace` with a string pattern
substitutes only the first occurrence. -/
theorem c2_counterexample :
    ((validateAndFixCodebase c2TwoDefects).files.any
      (fun f => sContains f.content btnObjCall)) = true := by
  decide

/-- **C2 (amended).** For every artifact set whose first `Button.tsx`
artifact contains the literal object-call pattern (and does not trigger
the unrelated Tailwind or Card/Input rewrites), `validateAndFix` rewrites
the *first* occurrence to the positional call — so the returned Button
artifact contains `buttonVariants(variant, size)` — and re-validating the
returned artifact set reports zero errors for the buttonVariants
signature rule. -/
theorem c2_first_occurrence_fixed_and_revalidates_clean
    (fs : List GeneratedFile) (f : GeneratedFile)
    (hfind : fs.find? (fun g => sContains g.path "Button.tsx") = some f)
    (hcall : sContains f.content btnObjCall = true)
    (hr1 : sContains f.content "ring-primary-500/20" = false)
    (hr2 : sContains f.content "focus:ring-primary-" = false)
    (hcard : sContains f.path "Card.tsx" = false)
    (hinput : sContains f.path "Input.tsx" = false) :
    (validateAndFixCodebase fs).files.find? (fun g => sContains g.path "Button.tsx")
        = some { f with content := autoFixButtonFile f.content }
      ∧ sContains (autoFixButtonFile f.content) btnPosCall = true
      ∧ buttonSignatureErrors (validateAndFixCodebase fs).files = [] := by
  have hbtn : sContains f.path "Button.tsx" = true := by
    have h := List.find?_some hfind
    simpa using h
  have hfind2 : (validateAndFixCodebase fs).files.find?
      (fun g => sContains g.path "Button.tsx")
      = some (signatureFixFile (twFixFile f)) := by
    show ((fs.map twFixFile).map signatureFixFile).find? _ = _
    rw [find?_path_map "Button.tsx" signatureFixFile (fun _ => rfl),
      find?_path_map "Button.tsx" twFixFile (fun _ => rfl), hfind]
    rfl
  have htw : twFixFile f = f := twFixFile_eq_self hr1 hr2
  have hsig : signatureFixFile f = { f with content := autoFixButtonFile f.content } := by
    simp [signatureFixFile, hbtn, hcard, hinput]
  have hcontains : sContains (autoFixButtonFile f.content) btnPosCall = true := by
    unfold autoFixButtonFile
    apply containsSub_rep_replaceFirstL_preserved _ (by decide)
    exact containsSub_rep_replaceFirstL _ (by decide) hcall
  rw [htw, hsig] at hfind2
  refine ⟨hfind2, hcontains, ?_⟩
  unfold buttonSignatureErrors
  rw [hfind2]
  cases hb : (sContains (autoFixButtonFile f.content) "buttonVariants(\x7b"
      && sContains (autoFixButtonFile f.content) btnDecl) with
  | false => simp [hb]
  | true => simp [hb, hcontains]

/-- A Button artifact with a single occurrence of the object-call
defect. -/
def c2OneDefect : List GeneratedFile :=
  [{ path := "src/components/common/Button.tsx",
     content := btnDecl ++ " => cn(a)\n" ++ btnObjCall }]

set_option maxRecDepth 16384 in
/-- Witness for the amended C2 theorem at a concrete defective artifact
set. -/
theorem c2_first_occurrence_fixed_witness :
    (validateAndFixCodebase c2OneDefect).files.find?
        (fun g => sContains g.path "Button.tsx")
      = some { path := "src/components/common/Button.tsx",
               content := autoFixButtonFile (btnDecl ++ " => cn(a)\n" ++ btnObjCall) }
      ∧ sContains (autoFixButtonFile (btnDecl ++ " => cn(a)\n" ++ btnObjCall)) btnPosCall = true
      ∧ buttonSignatureErrors (validateAndFixCodebase c2OneDefect).files = [] :=
  c2_first_occurrence_fixed_and_revalidates_clean c2OneDefect
    { path := "src/components/common/Button.tsx",
      content := btnDecl ++ " => cn(a)\n" ++ btnObjCall }
    (by decide) (by decide) (by decide) (by decide) (by decide) (by decide)

-- ======================= theorems: import-resolution claim C6 =============

theorem takeWhile_notQuote_append (pd : List Char) (hq : ∀ c ∈ pd, isQuote c = false)
    (r : List Char) :
    (pd ++ squote :: r).takeWhile notQuote = pd := by
  induction pd with
  | nil => simp [List.takeWhile_cons, notQuote, isQuote]
  | cons c t ih =>
    have hc := hq c (List.mem_cons_self _ _)
    simp [List.takeWhile_cons, notQuote, hc, ih (fun d hd => hq d (List.mem_cons_of_mem _ hd))]

theorem dropWhile_notQuote_append (pd : List Char) (hq : ∀ c ∈ pd, isQuote c = false)
    (r : List Char) :
    (pd ++ squote :: r).dropWhile notQuote = squote :: r := by
  induction pd with
  | nil => simp [List.dropWhile_cons, notQuote, isQuote]
  | cons c t ih =>
    have hc := hq c (List.mem_cons_self _ _)
    simp [List.dropWhile_cons, notQuote, hc, ih (fun d hd => hq d (List.mem_cons_of_mem _ hd))]

/-- A canonical brace-list import statement `import { X } from '<p>'`. -/
def importStmt (p : String) : String :=
  "import \x7b X \x7d from \x27" ++ p ++ "\x27"

/-- The import regular expression matches the canonical import statement
at its head, capturing exactly the quoted module path. -/
theorem matchImportAt_stmt_list (pd : List Char)
    (hq : ∀ c ∈ pd, isQuote c = false) (hne : pd ≠ []) :
    matchImportAt ("import \x7b X \x7d from \x27".data ++ (pd ++ [squote]))
      = some (pd, []) := by
  have hsq : isQuote squote = true := by decide
  have hwsq : jsWS squote = false := by decide
  have hemp : pd.isEmpty = false := by
    cases pd with
    | nil => exact absurd rfl hne
    | cons a b => rfl
  rw [matchImportAt]
  simp [List.isPrefixOf, jsWS, lbrace, rbrace, matchBraceGroup,
    matchFromClause, List.dropWhile_cons, List.takeWhile_cons, hsq, hwsq, hemp,
    takeWhile_notQuote_append pd hq, dropWhile_notQuote_append pd hq]
  simp [isQuote, squote, dquote]

theorem scanImports_nil : ∀ fuel, scanImports fuel [] = []
  | 0 => rfl
  | _ + 1 => rfl

/-- `extractImports` on the canonical aliased import statement extracts
exactly the module path. -/
theorem extractImports_importStmt (p : String)
    (hq : ∀ c ∈ p.data, isQuote c = false)
    (hat : sStartsWith p "@/" = true) :
    extractImports (importStmt p) = [p] := by
  obtain ⟨t0, ht0⟩ : ∃ t0, p.data = '@' :: '/' :: t0 := by
    have hp := (List.isPrefixOf_iff_prefix).1 hat
    obtain ⟨t0, ht0⟩ := hp
    exact ⟨t0, by simpa using ht0.symm⟩
  have hne : p.data ≠ [] := by rw [ht0]; exact List.cons_ne_nil _ _
  have hd : (importStmt p).data
      = "import \x7b X \x7d from \x27".data ++ (p.data ++ [squote]) := by
    simp [importStmt, String.data_append]
    try decide
  have hl19 : ("import \x7b X \x7d from \x27".data).length = 19 := by decide
  have hlen : ("import \x7b X \x7d from \x27".data ++ (p.data ++ [squote])).length
      = p.data.length + 20 := by
    simp [List.length_append, hl19]
    try omega
  have hL : "import \x7b X \x7d from \x27".data ++ (p.data ++ [squote])
      = 'i' :: ("mport \x7b X \x7d from \x27".data ++ (p.data ++ [squote])) := by
    have h0 : "import \x7b X \x7d from \x27".data
        = 'i' :: "mport \x7b X \x7d from \x27".data := by decide
    rw [h0]
    simp
  have hsucc : p.data.length + 20 = (p.data.length + 19) + 1 := rfl
  have hstep : scanImports (p.data.length + 20)
      ("import \x7b X \x7d from \x27".data ++ (p.data ++ [squote]))
      = [p.data] := by
    rw [hL, hsucc]
    rw [scanImports]
    rw [← hL, matchImportAt_stmt_list p.data hq hne]
    simp [scanImports_nil]
  have hnm : sStartsWith p "node_modules" = false := by
    simp [sStartsWith, ht0, List.isPrefixOf]
  have hdot : sStartsWith p "." = false := by
    simp [sStartsWith, ht0, List.isPrefixOf]
  simp only [extractImports, hd, hlen, hstep]
  simp [hnm, hdot]

/-- **C6.** For an artifact set in which file `a` imports an aliased path
`p` (`@/…`, quote-free) resolving to no artifact — `a` itself being none
of the expansion's suffix variants — `validateImports` reports exactly one
error, whose `file` field names `a` and whose message names `p` (the pass
returns only a report and leaves the artifacts untouched).  After adding
an artifact at any suffix variant `v` of the alias expansion and
re-running, no error is reported. -/
theorem c6_unresolved_alias_reported_then_fixed (a v p : String)
    (hq : ∀ c ∈ p.data, isQuote c = false)
    (hat : sStartsWith p "@/" = true)
    (ha : a ∉ possiblePaths (expandAlias p))
    (hv : v ∈ possiblePaths (expandAlias p))
    (hav : a ≠ v) :
    ((validateImports [{ path := a, content := importStmt p }]).errors
        = [{ file := a, error := missingModuleMsg p, severity := .error }]
      ∧ (validateImports [{ path := a, content := importStmt p }]).isValid = false)
      ∧ ((validateImports [{ path := a, content := importStmt p },
            { path := v, content := "" }]).errors = []
        ∧ (validateImports [{ path := a, content := importStmt p },
            { path := v, content := "" }]).isValid = true) := by
  have hext := extractImports_importStmt p hq hat
  have hmap1 : buildFileMap [{ path := a, content := importStmt p }]
      = [(a, importStmt p)] := by
    simp [buildFileMap, mapSet]
  have hfe1 : fileExists p [(a, importStmt p)] = false := by
    simp only [fileExists, List.any_eq_false]
    intro q hqmem
    simp only [List.any_cons, List.any_nil, Bool.or_false, decide_eq_true_eq]
    intro heq
    exact ha (heq ▸ hqmem)
  have hmap2 : buildFileMap [{ path := a, content := importStmt p },
      { path := v, content := "" }] = [(a, importStmt p), (v, "")] := by
    simp [buildFileMap, mapSet, hav]
  have hfe2 : fileExists p [(a, importStmt p), (v, "")] = true := by
    simp only [fileExists, List.any_eq_true]
    exact ⟨v, hv, by simp⟩
  constructor
  · constructor
    · simp [validateImports, hmap1, hext, hfe1]
    · simp [validateImports, hmap1, hext, hfe1]
  · have hext0 : extractImports "" = [] := rfl
    constructor
    · simp [validateImports, hmap2, hext, hext0, hfe1, hfe2]
    · simp [validateImports, hmap2, hext, hext0, hfe1, hfe2]

/-- The concrete importing artifact for the C6 witness. -/
def c6FileA : GeneratedFile :=
  { path := "src/App.tsx", content := importStmt "@/components/ui/button" }

/-- The concrete resolving artifact for the C6 witness. -/
def c6FileV : GeneratedFile :=
  { path := "src/components/ui/button.tsx", content := "" }

/-- Witness for the C6 theorem at a concrete artifact set and alias. -/
theorem c6_unresolved_alias_witness :
    ((validateImports [c6FileA]).errors
        = [{ file := "src/App.tsx",
             error := missingModuleMsg "@/components/ui/button", severity := .error }]
      ∧ (validateImports [c6FileA]).isValid = false)
      ∧ ((validateImports [c6FileA, c6FileV]).errors = []
        ∧ (validateImports [c6FileA, c6FileV]).isValid = true) :=
  c6_unresolved_alias_reported_then_fixed "src/App.tsx"
    "src/components/ui/button.tsx" "@/components/ui/button"
    (by decide) (by decide) (by decide) (by decide) (by decide)

-- ======================= src/app/api/fetch-website/route.ts ===============

mutual
/-- A DOM element or text node of the parsed page.  The external HTML
parser (cheerio) turns the raw markup into this tree; the extraction
engine is a pure function of it. -/
inductive HNode where
  | elem (tag : String) (attrs : List (String × String)) (children : HForest)
  | text (s : String)
deriving Repr

/-- A sequence of sibling DOM nodes (kept as a separate inductive so all
tree traversals are structural and fully computable). -/
inductive HForest where
  | nil
  | cons (head : HNode) (tail : HForest)
deriving Repr
end

/-- Build a forest from a list of nodes. -/
def HForest.ofList : List HNode → HForest
  | [] => .nil
  | n :: t => .cons n (HForest.ofList t)

/-- The tag of an element node (`""` for a text node). -/
def tagOf : HNode → String
  | .elem t _ _ => t
  | .text _ => ""

/-- The children of a node. -/
def childrenOf : HNode → HForest
  | .elem _ _ cs => cs
  | .text _ => .nil

/-- Attribute lookup (`$(el).attr(k)`): the value when present. -/
def getAttrN (n : HNode) (k : String) : Option String :=
  match n with
  | .elem _ attrs _ => (attrs.find? (fun kv => kv.1 = k)).map (fun kv => kv.2)
  | .text _ => none

/-- The `class` attribute, defaulting to the empty string. -/
def classAttr (n : HNode) : String := (getAttrN n "class").getD ""

/-- CSS `[class*='sub']`: the class attribute contains `sub` as a
substring. -/
def classContains (n : HNode) (sub : String) : Bool := sContains (classAttr n) sub

/-- CSS `.tok`: the class attribute contains `tok` as a whitespace
token. -/
def hasClassToken (n : HNode) (tok : String) : Bool :=
  ((splitOnCharL ' ' (classAttr n).data).map (fun l => (⟨l⟩ : String))).any (fun s => s = tok)

/-- Is this an element with the given tag? -/
def isTag (n : HNode) (t : String) : Bool := tagOf n = t

/-- JavaScript truthy-or on strings: `a || b` (the empty string is
falsy). -/
def jsOrS (a b : String) : String := if a = "" then b else a

/-- JavaScript truthy-or of an optional attribute against a string
default: `$(el).attr(k) || d`. -/
def jsAttrOr (o : Option String) (d : String) : String :=
  match o with
  | some s => if s = "" then d else s
  | none => d

/-- A truthy optional string: `undefined` and `""` both collapse to
`none` (the semantics of a `||` chain ending in `undefined`/`null`). -/
def truthyOpt (o : Option String) : Option String :=
  match o with
  | some s => if s = "" then none else some s
  | none => none

mutual
/-- The concatenated descendant text of one node. -/
def textOfN : HNode → String
  | .text s => s
  | .elem _ _ cs => textOfF cs
/-- The concatenated descendant text of a forest (`$(el).text()`). -/
def textOfF : HForest → String
  | .nil => ""
  | .cons n rest => textOfN n ++ textOfF rest
end

/-- `$(sel).text()` over a matched set: concatenation of each match's
text. -/
def textOfNodes (ns : List HNode) : String :=
  ns.foldl (fun acc n => acc ++ textOfN n) ""

mutual
/-- Pre-order collection of the element nodes of a subtree satisfying a
predicate. -/
def collectN (p : HNode → Bool) : HNode → List HNode
  | .text _ => []
  | .elem t a cs => (if p (.elem t a cs) then [HNode.elem t a cs] else []) ++ collectF p cs
/-- Pre-order collection over a forest: cheerio's document-order matched
set. -/
def collectF (p : HNode → Bool) : HForest → List HNode
  | .nil => []
  | .cons n rest => collectN p n ++ collectF p rest
end

/-- `$(el).find(sel)`: document-order selection among the descendants. -/
def findIn (n : HNode) (p : HNode → Bool) : List HNode := collectF p (childrenOf n)

mutual
/-- Pre-order collection with the parent at hand, for the
child-combinator selectors `[class*='container'] > div` and `main > div`. -/
def candN (pred : Option HNode → HNode → Bool) : Option HNode → HNode → List HNode
  | _, .text _ => []
  | parent, .elem t a cs =>
    (if pred parent (.elem t a cs) then [HNode.elem t a cs] else [])
      ++ candF pred (some (.elem t a cs)) cs
/-- Parent-aware pre-order collection over a forest. -/
def candF (pred : Option HNode → HNode → Bool) : Option HNode → HForest → List HNode
  | _, .nil => []
  | parent, .cons n rest => candN pred parent n ++ candF pred parent rest
end

mutual
/-- Pre-order collection carrying the ancestor chain (nearest first), for
`$(el).closest(sel)`. -/
def ancN (p : HNode → Bool) : List HNode → HNode → List (HNode × List HNode)
  | _, .text _ => []
  | ancs, .elem t a cs =>
    (if p (.elem t a cs) then [(HNode.elem t a cs, ancs)] else [])
      ++ ancF p ((HNode.elem t a cs) :: ancs) cs
/-- Ancestor-aware pre-order collection over a forest. -/
def ancF (p : HNode → Bool) : List HNode → HForest → List (HNode × List HNode)
  | _, .nil => []
  | ancs, .cons n rest => ancN p ancs n ++ ancF p ancs rest
end

mutual
/-- Serialization of one node back to markup, with attributes rendered
`k="v"`; entity escaping and void-element self-closing are not modelled
(no claim depends on them). -/
def serializeN : HNode → String
  | .text s => s
  | .elem t a cs =>
    "<" ++ t ++ (a.foldl (fun acc kv => acc ++ " " ++ kv.1 ++ "=\"" ++ kv.2 ++ "\"") "")
      ++ ">" ++ serializeF cs ++ "</" ++ t ++ ">"
/-- Serialization of a forest (cheerio's `.html()` of a container). -/
def serializeF : HForest → String
  | .nil => ""
  | .cons n rest => serializeN n ++ serializeF rest
end

/-- The inner markup of a node (`$(el).html()`). -/
def innerHtml (n : HNode) : String := serializeF (childrenOf n)

/-- The inline-`style` declaration for a property (cheerio's
`$(el).css(prop)` reads the `style` attribute). -/
def styleDecl (n : HNode) (prop : String) : Option String :=
  match getAttrN n "style" with
  | some s =>
    ((splitOnCharL ';' s.data).filterMap (fun decl =>
      match splitOnCharL ':' decl with
      | k :: v :: _ => if sTrim ⟨k⟩ = prop then some (sTrim ⟨v⟩) else none
      | _ => none)).head?
  | none => none

/-- `CrawlResult` from the route module: the asset bundle produced by the
external crawler.  (`rootVariables` is optional in the source and unused
by the extraction engine.) -/
structure CrawlResult where
  html : String
  cssFiles : List (String × String)
  jsFiles : List (String × String)
  inlineStyles : List String
  inlineScripts : List String
deriving DecidableEq, Repr

/-- `NavItem` from the route module. -/
structure NavItem where
  text : String
  href : String
  ariaLabel : Option String := none
deriving DecidableEq, Repr

/-- `HeroSection` from the route module (`rawHtml` is optional and never
set by the parser). -/
structure HeroSection where
  title : String
  subtitle : String
  ctaText : String
  ctaLink : String
  backgroundImage : Option String
  rawHtml : Option String := none
deriving DecidableEq, Repr

/-- The `type` union of `ContentSection`. -/
inductive SType where
  | text
  | cards
  | features
  | testimonials
  | faq
  | contact
  | pricing
  | content
deriving DecidableEq, Repr

/-- `SectionItem` from the route module (`icon` is optional and never set
by the parser, so it is omitted here). -/
structure SectionItem where
  title : String
  description : String
  image : Option String := none
  link : Option String := none
deriving DecidableEq, Repr

/-- `ContentSection` from the route module. -/
structure ContentSection where
  id : String
  type : SType
  heading : String
  subheading : String
  content : String
  items : Option (List SectionItem) := none
  columns : Option Nat := none
  rawHtml : Option String := none
deriving DecidableEq, Repr

/-- One `{text, href}` pair of a footer group. -/
structure LinkPair where
  text : String
  href : String
deriving DecidableEq, Repr

/-- `FooterLink` from the route module: a named group of links. -/
structure FooterLink where
  «section» : String
  links : List LinkPair
deriving DecidableEq, Repr

/-- `ExtractedImage` from the route module. -/
structure ExtractedImage where
  src : String
  alt : String
  «section» : String
deriving DecidableEq, Repr

/-- `FormElement` from the route module. -/
structure FormElement where
  type : String
  placeholder : Option String := none
  required : Bool
deriving DecidableEq, Repr

/-- `ColorPalette` from the route module. -/
structure ColorPalette where
  primary : String
  secondary : String
  accent : String
  background : String
  text : String
deriving DecidableEq, Repr

/-- `PageMetadata` from the route module. -/
structure PageMetadata where
  language : String
  charset : String
  keywords : List String
  url : Option String := none
  ogImage : Option String := none
  twitterCard : Option String := none
deriving DecidableEq, Repr

/-- `ParsedContent` from the route module.  (`htmlAttributes` and
`bodyAttributes` come from an untyped `metadata` field the crawler does
not produce, so the parser always yields the empty record for them; they
are modelled as constant empty association lists.) -/
structure ParsedContent where
  title : String
  description : String
  favicon : Option String
  navItems : List NavItem
  hero : Option HeroSection
  sections : List ContentSection
  footerLinks : List FooterLink
  images : List ExtractedImage
  formElements : List FormElement
  colors : ColorPalette
  metadata : PageMetadata
  bodyContent : String
  headContent : String
  htmlAttributes : List (String × String) := []
  bodyAttributes : List (String × String) := []
  crawledAssets : CrawlResult
  headerHtml : Option String := none
  footerHtml : Option String := none
deriving DecidableEq, Repr

/-- `normalizeUrl` from the route module. -/
def normalizeUrl (url domain : String) : String :=
  if url = "" then ""
  else if sStartsWith url "data:" then url
  else if sStartsWith url "http://" || sStartsWith url "https://" then url
  else if sStartsWith url "//" then "https:" ++ url
  else if sStartsWith url "/" then "https://" ++ domain ++ url
  else "https://" ++ domain ++ "/" ++ url

/-- The value class `[#\w(),.]` of the color regular expressions. -/
def isValChar (c : Char) : Bool :=
  c = '#' || ('a' ≤ c && c ≤ 'z') || ('A' ≤ c && c ≤ 'Z') || ('0' ≤ c && c ≤ '9')
    || c = '_' || c = '(' || c = ')' || c = ',' || c = '.'

/-- Case-insensitive prefix comparison (the `/i` flag). -/
def ciPrefix : List Char → List Char → Bool
  | [], _ => true
  | _ :: _, [] => false
  | k :: ks, c :: cs => (k.toLower = c.toLower) && ciPrefix ks cs

/-- After a case-insensitive match of `key`, the remainder of the color
regular expression `key[^:]*:\s*([#\w(),.]+)`: any run of non-colon
characters, a colon, optional whitespace, then a non-empty run of value
characters (the capture). -/
def parseColorAt (key : List Char) (l : List Char) : Option (List Char) :=
  let r0 := l.drop key.length
  match r0.dropWhile (fun c => c ≠ ':') with
  | c :: r2 =>
    if c = ':' then
      let v := (r2.dropWhile jsWS).takeWhile isValChar
      if v.isEmpty then none else some v
    else none
  | [] => none

/-- Scan for the first (leftmost) case-insensitive match of the color
regular expression; `l.length` fuel always suffices. -/
def findColorGo (key : List Char) : Nat → List Char → Option (List Char)
  | 0, _ => none
  | _ + 1, [] => none
  | fuel + 1, c :: t =>
    if ciPrefix key (c :: t) then
      match parseColorAt key (c :: t) with
      | some v => some v
      | none => findColorGo key fuel t
    else findColorGo key fuel t

/-- `css.match(/key[^:]*:\s*([#\w(),.]+)/i)` followed by `[1].trim()`. -/
def findColorDecl (key : String) (css : String) : Option String :=
  (findColorGo key.data css.data.length css.data).map (fun v => sTrim ⟨v⟩)

/-- Join with newlines (JavaScript `parts.join("\n")`). -/
def joinNL : List String → String
  | [] => ""
  | [s] => s
  | s :: rest => s ++ "\n" ++ joinNL rest

/-- The concatenated stylesheet text `allCss` of
`extractColorsFromAssets`: every fetched stylesheet's content followed by
every inline style block. -/
def allCssOf (crawledAssets : CrawlResult) : String :=
  joinNL (crawledAssets.cssFiles.map (fun f => f.2) ++ crawledAssets.inlineStyles)

/-- `extractColorsFromAssets` from the route module: look for
`--primary`/`--secondary`/`--accent` custom-property declarations
(case-insensitive, first match wins); unmatched keys keep the fixed
defaults; background and text are always fixed. -/
def extractColorsFromAssets (crawledAssets : CrawlResult) : ColorPalette :=
  let allCss := allCssOf crawledAssets
  { primary := (findColorDecl "--primary" allCss).getD "#3b82f6",
    secondary := (findColorDecl "--secondary" allCss).getD "#1e40af",
    accent := (findColorDecl "--accent" allCss).getD "#60a5fa",
    background := "#ffffff",
    text := "#1f2937" }

/-- `detectSectionType` from the route module: fixed-priority
classification over the candidate's inner markup, then the card-like
descendant check, else `features`. -/
def detectSectionType (el : HNode) : SType :=
  let html := innerHtml el
  if sContains html "testimonial" || sContains html "quote" then .testimonials
  else if sContains html "pricing" || sContains html "plan" then .pricing
  else if sContains html "faq" || sContains html "question" then .faq
  else if sContains html "contact" || sContains html "form" then .contact
  else if (findIn el (fun m => classContains m "card")).length > 0 then .cards
  else .features

/-- `detectColumns` from the route module: digit-substring heuristic on
the container's class attribute. -/
def detectColumns (el : HNode) : Nat :=
  let classList := classAttr el
  if sContains classList "4" then 4
  else if sContains classList "3" then 3
  else if sContains classList "2" then 2
  else 1

/-- `$(sel).first().text()`: the text of the first match, `""` for an
empty selection. -/
def firstText (ns : List HNode) : String :=
  match ns.head? with
  | some n => textOfN n
  | none => ""

/-- `$(sel).eq(i).text()`: the text of the `i`-th match, `""` when out of
range. -/
def eqText (ns : List HNode) (i : Nat) : String :=
  match ns.get? i with
  | some n => textOfN n
  | none => ""

/-- `$("title").text() || domain`. -/
def titleOf (doc : HForest) (domain : String) : String :=
  jsOrS (textOfNodes (collectF (fun n => isTag n "title") doc)) domain

/-- `$('meta[name="description"]').attr("content") || ""`. -/
def descriptionOf (doc : HForest) : String :=
  jsAttrOr
    (((collectF (fun n => isTag n "meta" && getAttrN n "name" = some "description") doc).head?).bind
      (fun n => getAttrN n "content")) ""

/-- The favicon `||` chain over `link[rel="icon"]` and
`link[rel="shortcut icon"]`. -/
def faviconOf (doc : HForest) : Option String :=
  match truthyOpt (((collectF (fun n => isTag n "link" && getAttrN n "rel" = some "icon") doc).head?).bind
      (fun n => getAttrN n "href")) with
  | some s => some s
  | none =>
    truthyOpt (((collectF (fun n => isTag n "link" && getAttrN n "rel" = some "shortcut icon") doc).head?).bind
      (fun n => getAttrN n "href"))

/-- `$('meta[name="keywords"]').attr("content")?.split(",").map(trim) || []`. -/
def keywordsOf (doc : HForest) : List String :=
  match ((collectF (fun n => isTag n "meta" && getAttrN n "name" = some "keywords") doc).head?).bind
      (fun n => getAttrN n "content") with
  | some s => (splitOnCharL ',' s.data).map (fun l => sTrim ⟨l⟩)
  | none => []

/-- The raw anchors of the first navigation landmark, filtered as the
source does: non-empty trimmed text, length below 100, no newline. -/
def navItemsOf (doc : HForest) (domain : String) : List NavItem :=
  let container := (collectF (fun n => isTag n "header" || isTag n "nav") doc).head?
  let anchors := match container with
    | some n => findIn n (fun m => isTag m "a")
    | none => []
  anchors.filterMap (fun a =>
    let text := sTrim (textOfN a)
    let href := jsAttrOr (getAttrN a "href") "#"
    if text ≠ "" ∧ text.length < 100 ∧ sContains text "\n" = false then
      some { text := text, href := normalizeUrl href domain, ariaLabel := getAttrN a "aria-label" }
    else none)

/-- The `navItems` field of the parse result: de-duplicated via a `Set`
of serialized items (full structural identity), truncated to the first
ten in document order. -/
def navItemsFinal (doc : HForest) (domain : String) : List NavItem :=
  (dedupKeepFirst (navItemsOf doc domain)).take 10

/-- The hero selector
`[class*='hero'], [class*='banner'], header, .jumbotron`. -/
def isHeroSel (n : HNode) : Bool :=
  classContains n "hero" || classContains n "banner" || isTag n "header"
    || hasClassToken n "jumbotron"

/-- The hero extraction of `parseWebsiteContent` (null when no hero-like
element matches). -/
def heroOf (doc : HForest) (title description : String) : Option HeroSection :=
  match (collectF isHeroSel doc).head? with
  | some heroEl =>
    let h1 := sTrim (firstText (findIn heroEl (fun m => isTag m "h1")))
    let subtitle := sTrim (firstText (findIn heroEl (fun m => isTag m "h2" || isTag m "p")))
    let ctaBtn := (findIn heroEl (fun m => isTag m "a" || isTag m "button")).head?
    some { title := jsOrS h1 title,
           subtitle := jsOrS subtitle description,
           ctaText := jsOrS (sTrim (match ctaBtn with | some b => textOfN b | none => "")) "Learn More",
           ctaLink := jsAttrOr (ctaBtn.bind (fun b => getAttrN b "href")) "#",
           backgroundImage := truthyOpt (styleDecl heroEl "background-image") }
  | none => none

/-- The image extraction: every `img` with a non-empty, non-data source,
attributed to the class of the nearest `section`-like ancestor. -/
def imagesOf (doc : HForest) (domain : String) : List ExtractedImage :=
  (ancF (fun n => isTag n "img") [] doc).filterMap (fun ia =>
    let src := (getAttrN ia.1 "src").getD ""
    let alt := jsAttrOr (getAttrN ia.1 "alt") "Image"
    if src ≠ "" ∧ sContains src "data:" = false then
      let closest := (ia.1 :: ia.2).find?
        (fun m => isTag m "section" || (isTag m "div" && classContains m "section"))
      some { src := normalizeUrl src domain, alt := alt,
             «section» := jsAttrOr (closest.bind (fun m => getAttrN m "class")) "general" }
    else none)

/-- The form-field extraction: every `input`/`textarea`/`select`. -/
def formElementsOf (doc : HForest) : List FormElement :=
  (collectF (fun n => isTag n "input" || isTag n "textarea" || isTag n "select") doc).map
    (fun el =>
      { type := jsAttrOr (getAttrN el "type") "text",
        placeholder := getAttrN el "placeholder",
        required := (getAttrN el "required").isSome })

/-- The footer-group extraction: inside every footer, every
`div`/`section`/`ul` with a non-empty heading-like child becomes a named
group of non-empty-text links; zero-link groups are dropped. -/
def footerLinksOf (doc : HForest) (domain : String) : List FooterLink :=
  (collectF (fun n => isTag n "footer") doc).flatMap (fun footer =>
    (findIn footer (fun n => isTag n "div" || isTag n "section" || isTag n "ul")).filterMap
      (fun sec =>
        let heading := sTrim (firstText
          (findIn sec (fun n => isTag n "h3" || isTag n "h4" || isTag n "strong")))
        if heading ≠ "" then
          let links := (findIn sec (fun n => isTag n "a")).filterMap (fun link =>
            let text := sTrim (textOfN link)
            if text ≠ "" then
              some { text := text,
                     href := normalizeUrl (jsAttrOr (getAttrN link "href") "#") domain }
            else none)
          if links ≠ ([] : List LinkPair) then some { «section» := heading, links := links }
          else none
        else none))

/-- The section-candidate selector
`section, [class*='section'], [class*='container'] > div, main > div,
article`. -/
def isSectionCandidate (parent : Option HNode) (n : HNode) : Bool :=
  isTag n "section" || classContains n "section"
    || (match parent with
        | some par => (classContains par "container" || isTag par "main") && isTag n "div"
        | none => false)
    || isTag n "article"

/-- The document-order section candidates. -/
def sectionCandidates (doc : HForest) : List HNode := candF isSectionCandidate none doc

/-- The per-candidate item extraction
(`[class*='card'], [class*='item'], [class*='feature'],
[class*='service'], li, [class*='box']`, kept when the title-like text
exceeds two characters). -/
def sectionItemsOf (el : HNode) : List SectionItem :=
  (findIn el (fun m => classContains m "card" || classContains m "item"
      || classContains m "feature" || classContains m "service" || isTag m "li"
      || classContains m "box")).filterMap (fun item =>
    let itemTitle := sTrim (firstText (findIn item (fun t => isTag t "h3" || isTag t "h4"
      || hasClassToken t "title" || isTag t "strong"
      || (isTag t "span" && classContains t "title"))))
    if itemTitle ≠ "" ∧ itemTitle.length > 2 then
      some { title := itemTitle,
             description := sTrim (firstText (findIn item (fun t => isTag t "p"))),
             image := ((findIn item (fun t => isTag t "img")).head?).bind
               (fun i => getAttrN i "src"),
             link := ((findIn item (fun t => isTag t "a")).head?).bind
               (fun a => getAttrN a "href") }
    else none)

/-- The body of the `sectionElements.each` loop: `index` is the position
in the candidate list (used for the id), `count` the number of accepted
sections so far (used for the heading fallback); candidates whose trimmed
text is missing or shorter than 20 characters are skipped. -/
def buildSections : Nat → List (Nat × HNode) → List ContentSection
  | _, [] => []
  | count, (index, el) :: rest =>
    let heading := sTrim (firstText
      (findIn el (fun h => isTag h "h2" || isTag h "h3" || isTag h "h1")))
    let text := sTrim (textOfN el)
    if text = "" ∨ text.length < 20 then buildSections count rest
    else
      let count2 := count + 1
      let items := sectionItemsOf el
      let base : ContentSection :=
        { id := "section-" ++ toString index,
          type := detectSectionType el,
          heading := jsOrS heading ("Section " ++ toString count2),
          subheading := sTrim (eqText
            (findIn el (fun h => isTag h "h3" || isTag h "h4" || isTag h "p")) 1),
          content := jsOrS (sTrim (firstText (findIn el (fun t => isTag t "p"))))
            (⟨text.data.take 200⟩ : String),
          rawHtml := some (innerHtml el) }
      let sec := if items ≠ ([] : List SectionItem) then
          { base with items := some items, columns := some (detectColumns el) }
        else base
      sec :: buildSections count2 rest

/-- The `sections` field of the parse result. -/
def sectionsOf (doc : HForest) : List ContentSection :=
  buildSections 0 (sectionCandidates doc).enum

/-- `$("header, nav").first().html() || ""` (and the same for the first
footer). -/
def firstInnerHtml (ns : List HNode) : String :=
  match ns.head? with
  | some n => innerHtml n
  | none => ""

/-- `parseWebsiteContent` from the route module: the extraction engine.
A pure, total function of the parsed DOM, the asset bundle and the
domain; every field degrades to its default instead of failing. -/
def parseWebsiteContent (doc : HForest) (domain : String) (crawledAssets : CrawlResult) :
    ParsedContent :=
  let title := titleOf doc domain
  let description := descriptionOf doc
  { title := title,
    description := description,
    favicon := match faviconOf doc with
      | some f => some (normalizeUrl f domain)
      | none => none,
    navItems := navItemsFinal doc domain,
    hero := heroOf doc title description,
    sections := sectionsOf doc,
    footerLinks := footerLinksOf doc domain,
    images := (imagesOf doc domain).take 50,
    formElements := formElementsOf doc,
    colors := extractColorsFromAssets crawledAssets,
    metadata := { language := jsAttrOr (((collectF (fun n => isTag n "html") doc).head?).bind
                    (fun n => getAttrN n "lang")) "en",
                  charset := jsAttrOr (((collectF (fun n => isTag n "meta"
                      && (getAttrN n "charset").isSome) doc).head?).bind
                    (fun n => getAttrN n "charset")) "utf-8",
                  keywords := keywordsOf doc,
                  url := some ("https://" ++ domain),
                  ogImage := truthyOpt (((collectF (fun n => isTag n "meta"
                      && getAttrN n "property" = some "og:image") doc).head?).bind
                    (fun n => getAttrN n "content")),
                  twitterCard := truthyOpt (((collectF (fun n => isTag n "meta"
                      && getAttrN n "name" = some "twitter:card") doc).head?).bind
                    (fun n => getAttrN n "content")) },
    bodyContent := firstInnerHtml (collectF (fun n => isTag n "body") doc),
    headContent := firstInnerHtml (collectF (fun n => isTag n "head") doc),
    crawledAssets := crawledAssets,
    headerHtml := some (firstInnerHtml (collectF (fun n => isTag n "header" || isTag n "nav") doc)),
    footerHtml := some (firstInnerHtml (collectF (fun n => isTag n "footer") doc)) }

/-- `domain.split(".")[0].charAt(0).toUpperCase() +
domain.split(".")[0].slice(1)`. -/
def titleCaseOf (domain : String) : String :=
  let base : String := match splitOnCharL '.' domain.data with
    | b :: _ => ⟨b⟩
    | [] => ""
  match base.data with
  | [] => ""
  | c :: rest => ⟨c.toUpper :: rest⟩

/-- `generateMockContent` from the route module: the deterministic mock
content model synthesized from the domain alone when the site is
inaccessible. -/
def generateMockContent (domain : String) : ParsedContent :=
  let titleCase := titleCaseOf domain
  { title := titleCase,
    description := "Learn about " ++ titleCase,
    favicon := none,
    navItems := [{ text := "Home", href := "/" }, { text := "About", href := "/about" },
                 { text := "Services", href := "/services" },
                 { text := "Contact", href := "/contact" }],
    hero := some { title := "Welcome to " ++ titleCase,
                   subtitle := "Building amazing digital experiences",
                   ctaText := "Get Started", ctaLink := "/contact", backgroundImage := none },
    sections := [{ id := "section-1", type := .features, heading := "Why Choose Us",
                   subheading := "We deliver excellence",
                   content := "Our services are designed to meet your needs",
                   items := some [{ title := "Fast", description := "Lightning quick performance" },
                                  { title := "Secure", description := "Enterprise-grade security" },
                                  { title := "Reliable", description := "99.9% uptime guarantee" }],
                   columns := some 3 }],
    footerLinks := [{ «section» := "Company",
                      links := [{ text := "About", href := "/about" },
                                { text := "Contact", href := "/contact" }] }],
    images := [],
    formElements := [{ type := "email", placeholder := some "your@email.com", required := true }],
    colors := { primary := "#3b82f6", secondary := "#1e40af", accent := "#60a5fa",
                background := "#ffffff", text := "#1f2937" },
    metadata := { language := "en", charset := "utf-8", keywords := [] },
    bodyContent := "",
    headContent := "",
    crawledAssets := { html := "", cssFiles := [], jsFiles := [], inlineStyles := [],
                       inlineScripts := [] } }

/-- The payload of the route's `POST` handler. -/
structure FetchResponse where
  success : Bool
  domain : String
  parsedContent : ParsedContent
  accessible : Bool
deriving DecidableEq, Repr

/-- The decision of the route's `POST` handler: when the crawl succeeds
its DOM and asset bundle feed the extraction engine; when it fails
(modelled as `none`) extraction is bypassed and the deterministic mock
content is substituted, with `accessible := false`. -/
def handleFetchWebsite (domain : String) (crawl : Option (HForest × CrawlResult)) :
    FetchResponse :=
  match crawl with
  | some (doc, assets) =>
    { success := true, domain := domain,
      parsedContent := parseWebsiteContent doc domain assets, accessible := true }
  | none =>
    { success := true, domain := domain,
      parsedContent := generateMockContent domain, accessible := false }

-- ======================= theorems: extraction claims ======================

/-- Modelled from the spec: "Type classified by fixed priority over inner
markup substrings: testimonial/quote → testimonials; pricing/plan →
pricing; faq/question → faq; contact/form → contact; else card-like
descendant present → cards; else → features — this exact order must be
preserved." -/
def sectionTypeSpec (el : HNode) : SType :=
  let inner := innerHtml el
  if sContains inner "testimonial" || sContains inner "quote" then .testimonials
  else if sContains inner "pricing" || sContains inner "plan" then .pricing
  else if sContains inner "faq" || sContains inner "question" then .faq
  else if sContains inner "contact" || sContains inner "form" then .contact
  else if (findIn el (fun m => classContains m "card")).length > 0 then .cards
  else .features

/-- The end-to-end markup of C3: a single section with heading `Pricing`
and one `card`-classed child, no lowercase `pricing`/`plan` substring
anywhere. -/
def pricingCardDoc : HForest :=
  HForest.ofList [HNode.elem "section" [] (HForest.ofList
    [HNode.elem "h2" [] (HForest.ofList [HNode.text "Pricing"]),
     HNode.elem "div" [("class", "card")] (HForest.ofList
       [HNode.elem "h3" [] (HForest.ofList [HNode.text "Basic"]),
        HNode.elem "p" [] (HForest.ofList [HNode.text "Ten dollars monthly"])])])]

/-- **C3.** `detectSectionType` classifies by exactly the spec's priority
order (the code's decision chain coincides with the spec-modelled one on
every node), and the end-to-end example — heading `Pricing`, one
`card`-classed child, no lowercase `pricing`/`plan` substring — yields a
single section of kind `cards` (substring matching is case-sensitive, so
the capitalized heading does not trigger the pricing rule). -/
theorem c3_section_type_priority :
    (∀ el : HNode, detectSectionType el = sectionTypeSpec el)
      ∧ (sectionsOf pricingCardDoc).map (fun s => (s.heading, s.type))
          = [("Pricing", SType.cards)] := by
  refine ⟨fun el => rfl, by decide⟩

/-- **C4.** Extraction is total by construction (`parseWebsiteContent` is
a pure Lean function of the DOM, domain and asset bundle), and on a
document with no matching structure every field degrades to its default:
title falls back to the domain, the palette to the fixed defaults when
the bundle has no stylesheet text, and every collection to empty. -/
theorem c4_extraction_totality_defaults (domain : String) (assets : CrawlResult)
    (h1 : assets.cssFiles = []) (h2 : assets.inlineStyles = []) :
    (parseWebsiteContent HForest.nil domain assets).title = domain
      ∧ (parseWebsiteContent HForest.nil domain assets).colors =
          { primary := "#3b82f6", secondary := "#1e40af", accent := "#60a5fa",
            background := "#ffffff", text := "#1f2937" }
      ∧ (parseWebsiteContent HForest.nil domain assets).navItems = []
      ∧ (parseWebsiteContent HForest.nil domain assets).sections = []
      ∧ (parseWebsiteContent HForest.nil domain assets).images = []
      ∧ (parseWebsiteContent HForest.nil domain assets).footerLinks = []
      ∧ (parseWebsiteContent HForest.nil domain assets).formElements = []
      ∧ (parseWebsiteContent HForest.nil domain assets).hero = none := by
  refine ⟨rfl, ?_, rfl, rfl, rfl, rfl, rfl, rfl⟩
  show extractColorsFromAssets assets = _
  rw [extractColorsFromAssets, allCssOf, h1, h2]
  rfl

/-- Witness for C4 at a concrete empty bundle. -/
theorem c4_extraction_totality_witness :
    (parseWebsiteContent HForest.nil "example.com"
        { html := "", cssFiles := [], jsFiles := [], inlineStyles := [],
          inlineScripts := [] }).title = "example.com"
      ∧ (parseWebsiteContent HForest.nil "example.com"
          { html := "", cssFiles := [], jsFiles := [], inlineStyles := [],
            inlineScripts := [] }).colors =
          { primary := "#3b82f6", secondary := "#1e40af", accent := "#60a5fa",
            background := "#ffffff", text := "#1f2937" }
      ∧ (parseWebsiteContent HForest.nil "example.com"
          { html := "", cssFiles := [], jsFiles := [], inlineStyles := [],
            inlineScripts := [] }).navItems = []
      ∧ (parseWebsiteContent HForest.nil "example.com"
          { html := "", cssFiles := [], jsFiles := [], inlineStyles := [],
            inlineScripts := [] }).sections = []
      ∧ (parseWebsiteContent HForest.nil "example.com"
          { html := "", cssFiles := [], jsFiles := [], inlineStyles := [],
            inlineScripts := [] }).images = []
      ∧ (parseWebsiteContent HForest.nil "example.com"
          { html := "", cssFiles := [], jsFiles := [], inlineStyles := [],
            inlineScripts := [] }).footerLinks = []
      ∧ (parseWebsiteContent HForest.nil "example.com"
          { html := "", cssFiles := [], jsFiles := [], inlineStyles := [],
            inlineScripts := [] }).formElements = []
      ∧ (parseWebsiteContent HForest.nil "example.com"
          { html := "", cssFiles := [], jsFiles := [], inlineStyles := [],
            inlineScripts := [] }).hero = none :=
  c4_extraction_totality_defaults "example.com"
    { html := "", cssFiles := [], jsFiles := [], inlineStyles := [], inlineScripts := [] }
    rfl rfl

/-- **C7.** For every document, domain and asset bundle, the extracted
`navItems` list has at most ten entries and no two entries share the same
`(text, href, ariaLabel)` triple — the list is de-duplicated by full
structural identity before being truncated to the first ten in document
order. -/
theorem c7_navItems_bounded_and_nodup (doc : HForest) (domain : String)
    (assets : CrawlResult) :
    (parseWebsiteContent doc domain assets).navItems.length ≤ 10
      ∧ (parseWebsiteContent doc domain assets).navItems.Nodup := by
  constructor
  · show ((dedupKeepFirst (navItemsOf doc domain)).take 10).length ≤ 10
    exact List.length_take_le 10 _
  · show ((dedupKeepFirst (navItemsOf doc domain)).take 10).Nodup
    exact List.Nodup.sublist (List.take_sublist _ _) (nodup_dedupKeepFirst _)

/-- **C9.** When the crawl fails for domain `acme.io`, extraction is
bypassed: the handler answers with `accessible = false` and the
deterministic mock content, whose title is `Acme` and whose single
section is headed `Why Choose Us`. -/
theorem c9_inaccessible_acme_mock :
    (handleFetchWebsite "acme.io" none).accessible = false
      ∧ (handleFetchWebsite "acme.io" none).parsedContent.title = "Acme"
      ∧ (handleFetchWebsite "acme.io" none).parsedContent.sections.length = 1
      ∧ ((handleFetchWebsite "acme.io" none).parsedContent.sections.map
          (fun s => s.heading)) = ["Why Choose Us"] := by
  refine ⟨rfl, by decide, rfl, by decide⟩

/-- `takeWhile` ignores an appended tail when the scan already stops
inside the first part. -/
theorem takeWhile_append_stop (p : Char → Bool) (l r : List Char)
    (h : l.dropWhile p ≠ []) : (l ++ r).takeWhile p = l.takeWhile p := by
  induction l with
  | nil => exact absurd rfl h
  | cons c t ih =>
    rw [List.cons_append, List.takeWhile_cons, List.takeWhile_cons]
    cases hc : p c with
    | true =>
      simp only [hc, if_true]
      rw [ih (by simpa [List.dropWhile_cons, hc] using h)]
    | false => simp [hc]

/-- `dropWhile` distributes over the append when the scan already stops
inside the first part. -/
theorem dropWhile_append_stop (p : Char → Bool) (l r : List Char)
    (h : l.dropWhile p ≠ []) : (l ++ r).dropWhile p = l.dropWhile p ++ r := by
  induction l with
  | nil => exact absurd rfl h
  | cons c t ih =>
    rw [List.cons_append, List.dropWhile_cons, List.dropWhile_cons]
    cases hc : p c with
    | true =>
      simp only [hc, if_true]
      exact ih (by simpa [List.dropWhile_cons, hc] using h)
    | false => simp [hc]

/-- A case-insensitive prefix match survives appending. -/
theorem ciPrefix_append (key l r : List Char) (h : ciPrefix key l = true) :
    ciPrefix key (l ++ r) = true := by
  induction key generalizing l with
  | nil => rfl
  | cons k ks ih =>
    cases l with
    | nil => simp [ciPrefix] at h
    | cons c t =>
      simp only [ciPrefix, Bool.and_eq_true] at h
      simp only [List.cons_append, ciPrefix, Bool.and_eq_true]
      exact ⟨h.1, ih t h.2⟩

/-- The color regular expression's tail parses the canonical accent
declaration, whatever follows it. -/
theorem parseColorAt_accent (suf : List Char) :
    parseColorAt ("--accent".data) ("--accent: #112233;".data ++ suf)
      = some ("#112233".data) := by
  have h1 : ("--accent: #112233;".data ++ suf).drop ("--accent".data).length
      = ": #112233;".data ++ suf := by
    rw [List.drop_append_of_le_length (by decide)]
    rw [show ("--accent: #112233;".data.drop ("--accent".data).length)
      = ": #112233;".data from by decide]
  have h2 : ((": #112233;".data ++ suf).dropWhile (fun c => c ≠ ':'))
      = ':' :: (" #112233;".data ++ suf) := by
    rw [dropWhile_append_stop _ _ _ (by decide)]
    rw [show (": #112233;".data.dropWhile (fun c => c ≠ ':'))
      = ':' :: " #112233;".data from by decide]
    simp
  have h3 : (" #112233;".data ++ suf).dropWhile jsWS = "#112233;".data ++ suf := by
    rw [dropWhile_append_stop _ _ _ (by decide)]
    rw [show (" #112233;".data.dropWhile jsWS) = "#112233;".data from by decide]
  have h4 : ("#112233;".data ++ suf).takeWhile isValChar = "#112233".data := by
    rw [takeWhile_append_stop _ _ _ (by decide)]
    decide
  simp only [parseColorAt, h1, h2, h3, h4]
  simp

/-- The color scan finds nothing when no position matches the key
case-insensitively. -/
theorem findColorGo_none (key : List Char) :
    ∀ (fuel : Nat) (l : List Char),
      (∀ i, i ≤ l.length → ciPrefix key (l.drop i) = false) →
      findColorGo key fuel l = none
  | 0, _, _ => rfl
  | _ + 1, [], _ => rfl
  | fuel + 1, c :: t, h => by
    have h0 : ciPrefix key (c :: t) = false := by simpa using h 0 (by simp)
    rw [findColorGo, h0]
    simp only [Bool.false_eq_true, if_false]
    exact findColorGo_none key fuel t (fun i hi => by
      simpa [List.drop_succ_cons] using h (i + 1) (by simpa using Nat.succ_le_succ hi))

/-- The color scan returns the parse of the first (leftmost) matching
position. -/
theorem findColorGo_first (key v : List Char) :
    ∀ (pre rest : List Char) (fuel : Nat),
      (pre ++ rest).length ≤ fuel →
      (∀ i, i < pre.length → ciPrefix key ((pre ++ rest).drop i) = false) →
      ciPrefix key rest = true →
      parseColorAt key rest = some v →
      findColorGo key fuel (pre ++ rest) = some v
  | [], rest, fuel, hf, _, hci, hparse => by
    cases rest with
    | nil => simp [parseColorAt] at hparse
    | cons c t =>
      cases fuel with
      | zero => simp at hf
      | succ f =>
        rw [List.nil_append]
        rw [findColorGo, hci]
        simp [hparse]
  | a :: pre', rest, fuel, hf, hocc, hci, hparse => by
    cases fuel with
    | zero => simp at hf
    | succ f =>
      have h0 : ciPrefix key (a :: (pre' ++ rest)) = false := by
        simpa [List.cons_append] using hocc 0 (by simp)
      rw [List.cons_append, findColorGo, h0]
      simp only [Bool.false_eq_true, if_false]
      refine findColorGo_first key v pre' rest f ?_ ?_ hci hparse
      · simp only [List.cons_append, List.length_cons] at hf
        omega
      · intro i hi
        have := hocc (i + 1) (by simp only [List.length_cons]; omega)
        simpa [List.cons_append, List.drop_succ_cons] using this

/-- **C8.** When the concatenated stylesheet and inline-style text
contains the declaration `--accent: #112233;` at its first
(case-insensitive) `--accent` match, the extracted accent is `#112233`;
keys with no case-insensitive match anywhere keep the fixed defaults;
and matching is case-insensitive (`--ACCENT:` also extracts the value). -/
theorem c8_accent_extraction :
    (∀ (assets : CrawlResult) (pre suf : List Char),
        (allCssOf assets).data = pre ++ ("--accent: #112233;".data ++ suf) →
        (∀ i, i < pre.length →
          ciPrefix ("--accent".data) ((allCssOf assets).data.drop i) = false) →
        (extractColorsFromAssets assets).accent = "#112233")
      ∧ (∀ assets : CrawlResult,
          (∀ i, i ≤ (allCssOf assets).data.length →
            ciPrefix ("--primary".data) ((allCssOf assets).data.drop i) = false) →
          (extractColorsFromAssets assets).primary = "#3b82f6")
      ∧ (∀ assets : CrawlResult,
          (∀ i, i ≤ (allCssOf assets).data.length →
            ciPrefix ("--secondary".data) ((allCssOf assets).data.drop i) = false) →
          (extractColorsFromAssets assets).secondary = "#1e40af")
      ∧ (extractColorsFromAssets
          { html := "", cssFiles := [("styles.css", "--ACCENT: #112233;")],
            jsFiles := [], inlineStyles := [], inlineScripts := [] }).accent
          = "#112233" := by
  refine ⟨?_, ?_, ?_, by decide⟩
  · intro assets pre suf hdata hfirst
    show (findColorDecl "--accent" (allCssOf assets)).getD "#60a5fa" = "#112233"
    rw [findColorDecl]
    rw [hdata] at hfirst ⊢
    rw [findColorGo_first ("--accent".data) ("#112233".data) pre _ _
      (Nat.le_refl _) hfirst
      (ciPrefix_append _ _ _ (by decide)) (parseColorAt_accent suf)]
    decide
  · intro assets hocc
    show (findColorDecl "--primary" (allCssOf assets)).getD "#3b82f6" = _
    rw [findColorDecl, findColorGo_none _ _ _ hocc]
    rfl
  · intro assets hocc
    show (findColorDecl "--secondary" (allCssOf assets)).getD "#1e40af" = _
    rw [findColorDecl, findColorGo_none _ _ _ hocc]
    rfl

/-- Witness for C8 at a concrete asset bundle whose only stylesheet is
the accent declaration. -/
theorem c8_accent_extraction_witness :
    (extractColorsFromAssets
        { html := "", cssFiles := [("styles.css", "--accent: #112233;")],
          jsFiles := [], inlineStyles := [], inlineScripts := [] }).accent = "#112233"
      ∧ (extractColorsFromAssets
          { html := "", cssFiles := [("styles.css", "--accent: #112233;")],
            jsFiles := [], inlineStyles := [], inlineScripts := [] }).primary = "#3b82f6"
      ∧ (extractColorsFromAssets
          { html := "", cssFiles := [("styles.css", "--accent: #112233;")],
            jsFiles := [], inlineStyles := [], inlineScripts := [] }).secondary = "#1e40af" :=
  ⟨c8_accent_extraction.1
      { html := "", cssFiles := [("styles.css", "--accent: #112233;")],
        jsFiles := [], inlineStyles := [], inlineScripts := [] } [] []
      (by decide) (fun i hi => absurd hi (Nat.not_lt_zero i)),
    c8_accent_extraction.2.1
      { html := "", cssFiles := [("styles.css", "--accent: #112233;")],
        jsFiles := [], inlineStyles := [], inlineScripts := [] } (by decide),
    c8_accent_extraction.2.2.1
      { html := "", cssFiles := [("styles.css", "--accent: #112233;")],
        jsFiles := [], inlineStyles := [], inlineScripts := [] } (by decide)⟩
/-!
## The synthesis engine (`codebase-generator.tsx`)

The generator module `generateCodebase` assembles the full artifact list
(path, text) for the synthesized project, then runs the Zod
validate-and-fix pass (`validateAndFixCodebase`, embedded above) over it;
the files placed in the ZIP are the fixed ones.  The impure ingredients
of the source are modelled explicitly:

* the Gemini structure analysis (`analyzeWebsiteStructure`) may return a
  different `AIAnalysisResult` on every run (network); the source stores
  it in `parsedContent.aiSuggestions` and it is the only run-dependent
  input, so it is passed as an explicit `Option AIAnalysisResult`
  argument and written into the content model exactly as the source does;
* the `delay`/`onProgress`/`console`/ZIP side channels produce no
  artifact text and are dropped;
* `convertHtmlToJsx` is a pure string-to-string rewrite (regex
  substitutions); it is abstracted as an explicit function parameter
  `htmlToJsx`, so every statement below holds for every instantiation,
  in particular for the source's `convertHtmlToJsx`.
-/

/-- The `type` union of `SectionSuggestion` from the Gemini analysis
module. -/
inductive SuggestionSectionType where
  | hero
  | features
  | pricing
  | form
  | footer
  | layout
  | custom
deriving DecidableEq, Repr

/-- The `category` union of `ComponentSuggestion` from the Gemini
analysis module. -/
inductive ComponentCategory where
  | common
  | layout
  | page
deriving DecidableEq, Repr

/-- `PageSuggestion` from the Gemini analysis module. -/
structure PageSuggestion where
  name : String
  description : String
  sections : List String
deriving DecidableEq, Repr

/-- `SectionSuggestion` from the Gemini analysis module. -/
structure SectionSuggestion where
  id : String
  name : String
  type : SuggestionSectionType
  description : String
  contains : List String
deriving DecidableEq, Repr

/-- `ComponentProp` from the Gemini analysis module. -/
structure ComponentProp where
  name : String
  type : String
  required : Bool
deriving DecidableEq, Repr

/-- `ComponentSuggestion` from the Gemini analysis module. -/
structure ComponentSuggestion where
  name : String
  type : String
  reusable : Bool
  category : ComponentCategory
  props : List ComponentProp
  description : String
deriving DecidableEq, Repr

/-- `AnalysisInsights` from the Gemini analysis module. -/
structure AnalysisInsights where
  totalSections : Nat
  reusableComponentCount : Nat
  suggestedPages : List String
  layoutStrategy : String
deriving DecidableEq, Repr

/-- `AIAnalysisResult` from the Gemini analysis module: the
SuggestionSet of the spec. -/
structure AIAnalysisResult where
  pages : List PageSuggestion
  sections : List SectionSuggestion
  components : List ComponentSuggestion
  insights : AnalysisInsights
deriving DecidableEq, Repr

/-- `ParsedContent` as the generator module itself declares it
(`codebase-generator.tsx`): the route parser's content model plus the
optional `aiSuggestions`/`bodyContent`/`headContent`/`crawledAssets`
fields.  Named `GenParsedContent` here because the route's mandatory
variant is already called `ParsedContent` above; the untyped `any`
collections are refined to the structures the route parser actually
produces. -/
structure GenParsedContent where
  title : String
  description : String
  favicon : Option String := none
  navItems : List NavItem := []
  hero : Option HeroSection := none
  sections : List ContentSection := []
  footerLinks : List FooterLink := []
  images : List ExtractedImage := []
  formElements : List FormElement := []
  colors : ColorPalette
  metadata : PageMetadata
  aiSuggestions : Option AIAnalysisResult := none
  bodyContent : Option String := none
  headContent : Option String := none
  crawledAssets : Option CrawlResult := none
deriving DecidableEq, Repr

/-- JavaScript `n || d` on an optional number: `undefined` and `0` are
both falsy. -/
def jsOrN (o : Option Nat) (d : Nat) : Nat :=
  match o with
  | some n => if n = 0 then d else n
  | none => d

/-- The guard `bodyContent && bodyContent.trim().length > 100` used by
`generateAppTsx` and `generateHomePageFromContent`. -/
def hasSubstantialBody (bodyContent : Option String) : Bool :=
  match bodyContent with
  | some b => !(b == "") && Nat.blt 100 (sTrim b).length
  | none => false

/-- One lowercase hexadecimal digit (for JSON control-character
escapes). -/
def hexDigit (n : Nat) : String :=
  String.singleton (Char.ofNat (if n < 10 then 48 + n else 87 + n))

/-- How `JSON.stringify` escapes one character inside a string
literal. -/
def jsonEscChar (c : Char) : String :=
  if c = Char.ofNat 92 then "\\\\"
  else if c = dquote then "\\\""
  else if c = Char.ofNat 8 then "\\b"
  else if c = Char.ofNat 9 then "\\t"
  else if c = Char.ofNat 10 then "\\n"
  else if c = Char.ofNat 12 then "\\f"
  else if c = Char.ofNat 13 then "\\r"
  else if c.toNat < 32 then "\\u00" ++ hexDigit (c.toNat / 16) ++ hexDigit (c.toNat % 16)
  else String.singleton c

/-- `JSON.stringify` string-literal escaping. -/
def jsonEscape (s : String) : String :=
  String.join (s.data.map jsonEscChar)
/-- `generateViteConfig` from the synthesis engine: the template literal of the source, verbatim. -/
def generateViteConfig : String :=
    "import \x7b defineConfig \x7d from \x27vite\x27\n" ++
    "import react from \x27@vitejs/plugin-react\x27\n" ++
    "import path from \x27path\x27\n" ++
    "\n" ++
    "export default defineConfig(\x7b\n" ++
    "  plugins: [react()],\n" ++
    "  resolve: \x7b\n" ++
    "    alias: \x7b\n" ++
    "      \x27@\x27: path.resolve(__dirname, \x27./src\x27),\n" ++
    "    \x7d,\n" ++
    "  \x7d,\n" ++
    "  server: \x7b\n" ++
    "    port: 3000,\n" ++
    "    open: true,\n" ++
    "  \x7d,\n" ++
    "  build: \x7b\n" ++
    "    outDir: \x27dist\x27,\n" ++
    "    sourcemap: true,\n" ++
    "  \x7d,\n" ++
    "\x7d)\n"

/-- `generateTailwindConfig` from the synthesis engine: the template literal of the source, verbatim. -/
def generateTailwindConfig (_colors : ColorPalette) : String :=
    "/** @type \x7bimport(\x27tailwindcss\x27).Config\x7d */\n" ++
    "export default \x7b\n" ++
    "  content: [\n" ++
    "    \"./index.html\",\n" ++
    "    \"./src/**/*.\x7bjs,ts,jsx,tsx\x7d\",\n" ++
    "  ],\n" ++
    "  theme: \x7b\n" ++
    "    extend: \x7b\n" ++
    "      colors: \x7b\n" ++
    "        primary: \x7b\n" ++
    "          50: \x27#f0f9ff\x27,\n" ++
    "          100: \x27#e0f2fe\x27,\n" ++
    "          200: \x27#bae6fd\x27,\n" ++
    "          300: \x27#7dd3fc\x27,\n" ++
    "          400: \x27#38bdf8\x27,\n" ++
    "          500: \x27#0ea5e9\x27,\n" ++
    "          600: \x27#0284c7\x27,\n" ++
    "          700: \x27#0369a1\x27,\n" ++
    "          800: \x27#075985\x27,\n" ++
    "          900: \x27#0c3d66\x27,\n" ++
    "        \x7d,\n" ++
    "        secondary: \x7b\n" ++
    "          50: \x27#f8fafc\x27,\n" ++
    "          100: \x27#f1f5f9\x27,\n" ++
    "          200: \x27#e2e8f0\x27,\n" ++
    "          300: \x27#cbd5e1\x27,\n" ++
    "          400: \x27#94a3b8\x27,\n" ++
    "          500: \x27#64748b\x27,\n" ++
    "          600: \x27#475569\x27,\n" ++
    "          700: \x27#334155\x27,\n" ++
    "          800: \x27#1e293b\x27,\n" ++
    "          900: \x27#0f172a\x27,\n" ++
    "        \x7d,\n" ++
    "        accent: \x7b\n" ++
    "          50: \x27#fdf2f8\x27,\n" ++
    "          100: \x27#fce7f3\x27,\n" ++
    "          200: \x27#fbcfe8\x27,\n" ++
    "          300: \x27#f8b4d8\x27,\n" ++
    "          400: \x27#f472b6\x27,\n" ++
    "          500: \x27#ec4899\x27,\n" ++
    "          600: \x27#db2777\x27,\n" ++
    "          700: \x27#be123c\x27,\n" ++
    "          800: \x27#9d174d\x27,\n" ++
    "          900: \x27#831843\x27,\n" ++
    "        \x7d,\n" ++
    "      \x7d,\n" ++
    "      fontFamily: \x7b\n" ++
    "        sans: [\x27Inter\x27, \x27system-ui\x27, \x27sans-serif\x27],\n" ++
    "      \x7d,\n" ++
    "    \x7d,\n" ++
    "  \x7d,\n" ++
    "  plugins: [],\n" ++
    "\x7d\n"

/-- `generateEslintConfig` from the synthesis engine: the template literal of the source, verbatim. -/
def generateEslintConfig : String :=
    "module.exports = \x7b\n" ++
    "  root: true,\n" ++
    "  env: \x7b browser: true, es2020: true \x7d,\n" ++
    "  extends: [\n" ++
    "    \x27eslint:recommended\x27,\n" ++
    "    \x27plugin:@typescript-eslint/recommended\x27,\n" ++
    "    \x27plugin:react-hooks/recommended\x27,\n" ++
    "  ],\n" ++
    "  ignorePatterns: [\x27dist\x27, \x27.eslintrc.cjs\x27],\n" ++
    "  parser: \x27@typescript-eslint/parser\x27,\n" ++
    "  plugins: [\x27react-refresh\x27],\n" ++
    "  rules: \x7b\n" ++
    "    \x27react-refresh/only-export-components\x27: [\n" ++
    "      \x27warn\x27,\n" ++
    "      \x7b allowConstantExport: true \x7d,\n" ++
    "    ],\n" ++
    "  \x7d,\n" ++
    "\x7d\n"

/-- `generateGitignore` from the synthesis engine: the template literal of the source, verbatim. -/
def generateGitignore : String :=
    "# Dependencies\n" ++
    "node_modules/\n" ++
    "\n" ++
    "# Build outputs\n" ++
    "dist/\n" ++
    "build/\n" ++
    "\n" ++
    "# Environment files\n" ++
    ".env\n" ++
    ".env.local\n" ++
    ".env.*.local\n" ++
    "\n" ++
    "# IDE\n" ++
    ".vscode/\n" ++
    ".idea/\n" ++
    "*.swp\n" ++
    "*.swo\n" ++
    "\n" ++
    "# OS\n" ++
    ".DS_Store\n" ++
    "Thumbs.db\n" ++
    "\n" ++
    "# Logs\n" ++
    "*.log\n" ++
    "npm-debug.log*\n" ++
    "\n" ++
    "# Test coverage\n" ++
    "coverage/\n"

/-- `generateMainTsx` from the synthesis engine: the template literal of the source, verbatim. -/
def generateMainTsx : String :=
    "import React from \x27react\x27\n" ++
    "import ReactDOM from \x27react-dom/client\x27\n" ++
    "import App from \x27./App\x27\n" ++
    "import \x27./styles/globals.css\x27\n" ++
    "import \x27./styles/site.css\x27  // Bundled CSS from the original site\n" ++
    "\n" ++
    "ReactDOM.createRoot(document.getElementById(\x27root\x27)!).render(\n" ++
    "  <React.StrictMode>\n" ++
    "    <App />\n" ++
    "  </React.StrictMode>\n" ++
    ")\n"

/-- `generateTypes` from the synthesis engine: the template literal of the source, verbatim. -/
def generateTypes : String :=
    "export interface BaseEntity \x7b\n" ++
    "  id: string\n" ++
    "  createdAt: Date\n" ++
    "  updatedAt: Date\n" ++
    "\x7d\n" ++
    "\n" ++
    "export interface PaginatedResponse<T> \x7b\n" ++
    "  data: T[]\n" ++
    "  total: number\n" ++
    "  page: number\n" ++
    "  limit: number\n" ++
    "  totalPages: number\n" ++
    "\x7d\n" ++
    "\n" ++
    "export interface SelectOption \x7b\n" ++
    "  value: string\n" ++
    "  label: string\n" ++
    "\x7d\n" ++
    "\n" ++
    "export type Status = \x27idle\x27 | \x27loading\x27 | \x27success\x27 | \x27error\x27\n"

/-- `generateApiTypes` from the synthesis engine: the template literal of the source, verbatim. -/
def generateApiTypes : String :=
    "export interface ApiResponse<T = unknown> \x7b\n" ++
    "  success: boolean\n" ++
    "  data?: T\n" ++
    "  message?: string\n" ++
    "  error?: string\n" ++
    "\x7d\n" ++
    "\n" ++
    "export interface ApiError \x7b\n" ++
    "  message: string\n" ++
    "  code?: string\n" ++
    "  status?: number\n" ++
    "\x7d\n" ++
    "\n" ++
    "export interface RequestConfig \x7b\n" ++
    "  headers?: Record<string, string>\n" ++
    "  params?: Record<string, string | number | boolean>\n" ++
    "  timeout?: number\n" ++
    "\x7d\n"

/-- `generateUserTypes` from the synthesis engine: the template literal of the source, verbatim. -/
def generateUserTypes : String :=
    "export interface User \x7b\n" ++
    "  id: string\n" ++
    "  email: string\n" ++
    "  name: string\n" ++
    "  avatar?: string\n" ++
    "  role: UserRole\n" ++
    "  createdAt: Date\n" ++
    "  updatedAt: Date\n" ++
    "\x7d\n" ++
    "\n" ++
    "export type UserRole = \x27admin\x27 | \x27user\x27 | \x27guest\x27\n" ++
    "\n" ++
    "export interface LoginCredentials \x7b\n" ++
    "  email: string\n" ++
    "  password: string\n" ++
    "\x7d\n" ++
    "\n" ++
    "export interface RegisterData extends LoginCredentials \x7b\n" ++
    "  name: string\n" ++
    "  confirmPassword: string\n" ++
    "\x7d\n" ++
    "\n" ++
    "export interface AuthState \x7b\n" ++
    "  user: User | null\n" ++
    "  token: string | null\n" ++
    "  isAuthenticated: boolean\n" ++
    "  isLoading: boolean\n" ++
    "\x7d\n"

/-- `generateRouteConstants` from the synthesis engine: the template literal of the source, verbatim. -/
def generateRouteConstants (_parsedContent : GenParsedContent) : String :=
    "export const ROUTES = \x7b\n" ++
    "  HOME: \x27/\x27,\n" ++
    "  ABOUT: \x27/about\x27,\n" ++
    "  CONTACT: \x27/contact\x27,\n" ++
    "  LOGIN: \x27/login\x27,\n" ++
    "  REGISTER: \x27/register\x27,\n" ++
    "  DASHBOARD: \x27/dashboard\x27,\n" ++
    "  PROFILE: \x27/profile\x27,\n" ++
    "  SETTINGS: \x27/settings\x27,\n" ++
    "  NOT_FOUND: \x27*\x27,\n" ++
    "\x7d as const\n" ++
    "\n" ++
    "export type RouteKey = keyof typeof ROUTES\n"

/-- `generateUtilsIndex` from the synthesis engine: the template literal of the source, verbatim. -/
def generateUtilsIndex : String :=
    "export * from \x27./helpers\x27\n" ++
    "export * from \x27./validators\x27\n" ++
    "export * from \x27./formatters\x27\n" ++
    "export * from \x27./storage\x27\n" ++
    "export * from \x27./logger\x27\n"

/-- `generateHelpers` from the synthesis engine: the template literal of the source, verbatim. -/
def generateHelpers : String :=
    "import \x7b clsx, type ClassValue \x7d from \x27clsx\x27\n" ++
    "import \x7b twMerge \x7d from \x27tailwind-merge\x27\n" ++
    "\n" ++
    "export function cn(...inputs: ClassValue[]): string \x7b\n" ++
    "  return twMerge(clsx(inputs))\n" ++
    "\x7d\n" ++
    "\n" ++
    "export function sleep(ms: number): Promise<void> \x7b\n" ++
    "  return new Promise((resolve) => setTimeout(resolve, ms))\n" ++
    "\x7d\n" ++
    "\n" ++
    "export function generateId(): string \x7b\n" ++
    "  return Math.random().toString(36).substring(2, 15)\n" ++
    "\x7d\n" ++
    "\n" ++
    "export function debounce<T extends (...args: unknown[]) => unknown>(\n" ++
    "  func: T,\n" ++
    "  wait: number\n" ++
    "): (...args: Parameters<T>) => void \x7b\n" ++
    "  let timeoutId: ReturnType<typeof setTimeout> | null = null\n" ++
    "  \n" ++
    "  return (...args: Parameters<T>) => \x7b\n" ++
    "    if (timeoutId) clearTimeout(timeoutId)\n" ++
    "    timeoutId = setTimeout(() => func(...args), wait)\n" ++
    "  \x7d\n" ++
    "\x7d\n" ++
    "\n" ++
    "export function throttle<T extends (...args: unknown[]) => unknown>(\n" ++
    "  func: T,\n" ++
    "  limit: number\n" ++
    "): (...args: Parameters<T>) => void \x7b\n" ++
    "  let inThrottle = false\n" ++
    "  \n" ++
    "  return (...args: Parameters<T>) => \x7b\n" ++
    "    if (!inThrottle) \x7b\n" ++
    "      func(...args)\n" ++
    "      inThrottle = true\n" ++
    "      setTimeout(() => (inThrottle = false), limit)\n" ++
    "    \x7d\n" ++
    "  \x7d\n" ++
    "\x7d\n"

/-- `generateValidators` from the synthesis engine: the template literal of the source, verbatim. -/
def generateValidators : String :=
    "export function isValidEmail(email: string): boolean \x7b\n" ++
    "  const emailRegex = /^[^\\s@]+@[^\\s@]+\\.[^\\s@]+$/\n" ++
    "  return emailRegex.test(email)\n" ++
    "\x7d\n" ++
    "\n" ++
    "export function isValidPassword(password: string): boolean \x7b\n" ++
    "  return password.length >= 8\n" ++
    "\x7d\n" ++
    "\n" ++
    "export function isValidPhone(phone: string): boolean \x7b\n" ++
    "  const phoneRegex = /^\\+?[1-9]\\d\x7b1,14\x7d$/\n" ++
    "  return phoneRegex.test(phone.replace(/[\\s-]/g, \x27\x27))\n" ++
    "\x7d\n" ++
    "\n" ++
    "export function isNotEmpty(value: string | undefined | null): boolean \x7b\n" ++
    "  return value !== undefined && value !== null && value.trim() !== \x27\x27\n" ++
    "\x7d\n" ++
    "\n" ++
    "export function isValidUrl(url: string): boolean \x7b\n" ++
    "  try \x7b\n" ++
    "    new URL(url)\n" ++
    "    return true\n" ++
    "  \x7d catch \x7b\n" ++
    "    return false\n" ++
    "  \x7d\n" ++
    "\x7d\n" ++
    "\n" ++
    "export interface ValidationResult \x7b\n" ++
    "  isValid: boolean\n" ++
    "  errors: string[]\n" ++
    "\x7d\n" ++
    "\n" ++
    "export function validateLoginForm(email: string, password: string): ValidationResult \x7b\n" ++
    "  const errors: string[] = []\n" ++
    "  \n" ++
    "  if (!isNotEmpty(email)) errors.push(\x27Email is required\x27)\n" ++
    "  else if (!isValidEmail(email)) errors.push(\x27Invalid email format\x27)\n" ++
    "  \n" ++
    "  if (!isNotEmpty(password)) errors.push(\x27Password is required\x27)\n" ++
    "  else if (!isValidPassword(password)) errors.push(\x27Password must be at least 8 characters\x27)\n" ++
    "  \n" ++
    "  return \x7b isValid: errors.length === 0, errors \x7d\n" ++
    "\x7d\n"

/-- `generateFormatters` from the synthesis engine: the template literal of the source, verbatim. -/
def generateFormatters : String :=
    "export function formatDate(date: Date | string, locale = \x27en-US\x27): string \x7b\n" ++
    "  const d = typeof date === \x27string\x27 ? new Date(date) : date\n" ++
    "  return d.toLocaleDateString(locale, \x7b\n" ++
    "    year: \x27numeric\x27,\n" ++
    "    month: \x27long\x27,\n" ++
    "    day: \x27numeric\x27,\n" ++
    "  \x7d)\n" ++
    "\x7d\n" ++
    "\n" ++
    "export function formatDateTime(date: Date | string, locale = \x27en-US\x27): string \x7b\n" ++
    "  const d = typeof date === \x27string\x27 ? new Date(date) : date\n" ++
    "  return d.toLocaleString(locale, \x7b\n" ++
    "    year: \x27numeric\x27,\n" ++
    "    month: \x27short\x27,\n" ++
    "    day: \x27numeric\x27,\n" ++
    "    hour: \x272-digit\x27,\n" ++
    "    minute: \x272-digit\x27,\n" ++
    "  \x7d)\n" ++
    "\x7d\n" ++
    "\n" ++
    "export function formatCurrency(amount: number, currency = \x27USD\x27, locale = \x27en-US\x27): string \x7b\n" ++
    "  return new Intl.NumberFormat(locale, \x7b\n" ++
    "    style: \x27currency\x27,\n" ++
    "    currency,\n" ++
    "  \x7d).format(amount)\n" ++
    "\x7d\n" ++
    "\n" ++
    "export function formatNumber(num: number, locale = \x27en-US\x27): string \x7b\n" ++
    "  return new Intl.NumberFormat(locale).format(num)\n" ++
    "\x7d\n" ++
    "\n" ++
    "export function truncate(str: string, length: number): string \x7b\n" ++
    "  if (str.length <= length) return str\n" ++
    "  return str.slice(0, length) + \x27...\x27\n" ++
    "\x7d\n" ++
    "\n" ++
    "export function capitalize(str: string): string \x7b\n" ++
    "  return str.charAt(0).toUpperCase() + str.slice(1).toLowerCase()\n" ++
    "\x7d\n" ++
    "\n" ++
    "export function slugify(str: string): string \x7b\n" ++
    "  return str\n" ++
    "    .toLowerCase()\n" ++
    "    .replace(/[^a-z0-9]+/g, \x27-\x27)\n" ++
    "    .replace(/(^-|-$)/g, \x27\x27)\n" ++
    "\x7d\n"

/-- `generateStorage` from the synthesis engine: the template literal of the source, verbatim. -/
def generateStorage : String :=
    "export const storage = \x7b\n" ++
    "  get<T>(key: string): T | null \x7b\n" ++
    "    try \x7b\n" ++
    "      const item = localStorage.getItem(key)\n" ++
    "      return item ? JSON.parse(item) : null\n" ++
    "    \x7d catch \x7b\n" ++
    "      return null\n" ++
    "    \x7d\n" ++
    "  \x7d,\n" ++
    "\n" ++
    "  set<T>(key: string, value: T): void \x7b\n" ++
    "    try \x7b\n" ++
    "      localStorage.setItem(key, JSON.stringify(value))\n" ++
    "    \x7d catch (error) \x7b\n" ++
    "      console.error(\x27Storage set error:\x27, error)\n" ++
    "    \x7d\n" ++
    "  \x7d,\n" ++
    "\n" ++
    "  remove(key: string): void \x7b\n" ++
    "    try \x7b\n" ++
    "      localStorage.removeItem(key)\n" ++
    "    \x7d catch (error) \x7b\n" ++
    "      console.error(\x27Storage remove error:\x27, error)\n" ++
    "    \x7d\n" ++
    "  \x7d,\n" ++
    "\n" ++
    "  clear(): void \x7b\n" ++
    "    try \x7b\n" ++
    "      localStorage.clear()\n" ++
    "    \x7d catch (error) \x7b\n" ++
    "      console.error(\x27Storage clear error:\x27, error)\n" ++
    "    \x7d\n" ++
    "  \x7d,\n" ++
    "\x7d\n" ++
    "\n" ++
    "export const sessionStorage = \x7b\n" ++
    "  get<T>(key: string): T | null \x7b\n" ++
    "    try \x7b\n" ++
    "      const item = window.sessionStorage.getItem(key)\n" ++
    "      return item ? JSON.parse(item) : null\n" ++
    "    \x7d catch \x7b\n" ++
    "      return null\n" ++
    "    \x7d\n" ++
    "  \x7d,\n" ++
    "\n" ++
    "  set<T>(key: string, value: T): void \x7b\n" ++
    "    try \x7b\n" ++
    "      window.sessionStorage.setItem(key, JSON.stringify(value))\n" ++
    "    \x7d catch (error) \x7b\n" ++
    "      console.error(\x27Session storage set error:\x27, error)\n" ++
    "    \x7d\n" ++
    "  \x7d,\n" ++
    "\n" ++
    "  remove(key: string): void \x7b\n" ++
    "    window.sessionStorage.removeItem(key)\n" ++
    "  \x7d,\n" ++
    "\n" ++
    "  clear(): void \x7b\n" ++
    "    window.sessionStorage.clear()\n" ++
    "  \x7d,\n" ++
    "\x7d\n"

/-- `generateLogger` from the synthesis engine: the template literal of the source, verbatim. -/
def generateLogger : String :=
    "type LogLevel = \x27debug\x27 | \x27info\x27 | \x27warn\x27 | \x27error\x27\n" ++
    "\n" ++
    "const LOG_LEVELS: Record<LogLevel, number> = \x7b\n" ++
    "  debug: 0,\n" ++
    "  info: 1,\n" ++
    "  warn: 2,\n" ++
    "  error: 3,\n" ++
    "\x7d\n" ++
    "\n" ++
    "const currentLevel: LogLevel = (import.meta.env.VITE_LOG_LEVEL as LogLevel) || \x27info\x27\n" ++
    "\n" ++
    "function shouldLog(level: LogLevel): boolean \x7b\n" ++
    "  return LOG_LEVELS[level] >= LOG_LEVELS[currentLevel]\n" ++
    "\x7d\n" ++
    "\n" ++
    "export const logger = \x7b\n" ++
    "  debug(message: string, ...args: unknown[]): void \x7b\n" ++
    "    if (shouldLog(\x27debug\x27)) \x7b\n" ++
    "      console.debug(\x60[DEBUG] $\x7bmessage\x7d\x60, ...args)\n" ++
    "    \x7d\n" ++
    "  \x7d,\n" ++
    "\n" ++
    "  info(message: string, ...args: unknown[]): void \x7b\n" ++
    "    if (shouldLog(\x27info\x27)) \x7b\n" ++
    "      console.info(\x60[INFO] $\x7bmessage\x7d\x60, ...args)\n" ++
    "    \x7d\n" ++
    "  \x7d,\n" ++
    "\n" ++
    "  warn(message: string, ...args: unknown[]): void \x7b\n" ++
    "    if (shouldLog(\x27warn\x27)) \x7b\n" ++
    "      console.warn(\x60[WARN] $\x7bmessage\x7d\x60, ...args)\n" ++
    "    \x7d\n" ++
    "  \x7d,\n" ++
    "\n" ++
    "  error(message: string, ...args: unknown[]): void \x7b\n" ++
    "    if (shouldLog(\x27error\x27)) \x7b\n" ++
    "      console.error(\x60[ERROR] $\x7bmessage\x7d\x60, ...args)\n" ++
    "    \x7d\n" ++
    "  \x7d,\n" ++
    "\x7d\n"

/-- `generateGlobalStyles` from the synthesis engine: the template literal of the source, verbatim. -/
def generateGlobalStyles (_colors : ColorPalette) : String :=
    "@tailwind base;\n" ++
    "@tailwind components;\n" ++
    "@tailwind utilities;\n" ++
    "\n" ++
    "@layer base \x7b\n" ++
    "  * \x7b\n" ++
    "    @apply border-gray-200;\n" ++
    "  \x7d\n" ++
    "  \n" ++
    "  body \x7b\n" ++
    "    @apply bg-white text-gray-900 antialiased;\n" ++
    "  \x7d\n" ++
    "  \n" ++
    "  html \x7b\n" ++
    "    @apply scroll-smooth;\n" ++
    "  \x7d\n" ++
    "\x7d\n" ++
    "\n" ++
    "@layer components \x7b\n" ++
    "  .container \x7b\n" ++
    "    @apply mx-auto max-w-7xl px-4 sm:px-6 lg:px-8;\n" ++
    "  \x7d\n" ++
    "  \n" ++
    "  .btn \x7b\n" ++
    "    @apply inline-flex items-center justify-center rounded-md font-medium transition-colors focus-visible:outline-none focus-visible:ring-2 focus-visible:ring-primary-500 focus-visible:ring-offset-2 disabled:pointer-events-none disabled:opacity-50;\n" ++
    "  \x7d\n" ++
    "  \n" ++
    "  .input \x7b\n" ++
    "    @apply flex h-10 w-full rounded-md border border-gray-300 bg-white px-3 py-2 text-sm placeholder:text-gray-400 focus:border-primary-500 focus:outline-none focus:ring-2 focus:ring-primary-500;\n" ++
    "  \x7d\n" ++
    "\x7d\n" ++
    "\n" ++
    "@layer utilities \x7b\n" ++
    "  .text-balance \x7b\n" ++
    "    text-wrap: balance;\n" ++
    "  \x7d\n" ++
    "\x7d\n"

/-- `generateThemeContext` from the synthesis engine: the template literal of the source, verbatim. -/
def generateThemeContext : String :=
    "import \x7b createContext, useContext, useState, useEffect, type ReactNode \x7d from \x27react\x27\n" ++
    "import \x7b storage \x7d from \x27@/utils/storage\x27\n" ++
    "import \x7b STORAGE_KEYS \x7d from \x27@/constants\x27\n" ++
    "\n" ++
    "type Theme = \x27light\x27 | \x27dark\x27 | \x27system\x27\n" ++
    "\n" ++
    "interface ThemeContextType \x7b\n" ++
    "  theme: Theme\n" ++
    "  setTheme: (theme: Theme) => void\n" ++
    "  isDark: boolean\n" ++
    "\x7d\n" ++
    "\n" ++
    "const ThemeContext = createContext<ThemeContextType | undefined>(undefined)\n" ++
    "\n" ++
    "export function ThemeProvider(\x7b children \x7d: \x7b children: ReactNode \x7d) \x7b\n" ++
    "  const [theme, setThemeState] = useState<Theme>(() => \x7b\n" ++
    "    return storage.get<Theme>(STORAGE_KEYS.THEME) || \x27system\x27\n" ++
    "  \x7d)\n" ++
    "\n" ++
    "  const [isDark, setIsDark] = useState(false)\n" ++
    "\n" ++
    "  useEffect(() => \x7b\n" ++
    "    const root = window.document.documentElement\n" ++
    "    \n" ++
    "    const systemDark = window.matchMedia(\x27(prefers-color-scheme: dark)\x27).matches\n" ++
    "    const dark = theme === \x27dark\x27 || (theme === \x27system\x27 && systemDark)\n" ++
    "    \n" ++
    "    setIsDark(dark)\n" ++
    "    root.classList.toggle(\x27dark\x27, dark)\n" ++
    "  \x7d, [theme])\n" ++
    "\n" ++
    "  const setTheme = (newTheme: Theme) => \x7b\n" ++
    "    setThemeState(newTheme)\n" ++
    "    storage.set(STORAGE_KEYS.THEME, newTheme)\n" ++
    "  \x7d\n" ++
    "\n" ++
    "  return (\n" ++
    "    <ThemeContext.Provider value=\x7b\x7b theme, setTheme, isDark \x7d\x7d>\n" ++
    "      \x7bchildren\x7d\n" ++
    "    </ThemeContext.Provider>\n" ++
    "  )\n" ++
    "\x7d\n" ++
    "\n" ++
    "export function useTheme() \x7b\n" ++
    "  const context = useContext(ThemeContext)\n" ++
    "  if (context === undefined) \x7b\n" ++
    "    throw new Error(\x27useTheme must be used within a ThemeProvider\x27)\n" ++
    "  \x7d\n" ++
    "  return context\n" ++
    "\x7d\n"

/-- `generateAuthContext` from the synthesis engine: the template literal of the source, verbatim. -/
def generateAuthContext : String :=
    "import \x7b createContext, useContext, useState, useEffect, type ReactNode \x7d from \x27react\x27\n" ++
    "import type \x7b User, AuthState \x7d from \x27@/types/user.types\x27\n" ++
    "import \x7b authService \x7d from \x27@/services/auth.service\x27\n" ++
    "import \x7b storage \x7d from \x27@/utils/storage\x27\n" ++
    "import \x7b STORAGE_KEYS \x7d from \x27@/constants\x27\n" ++
    "\n" ++
    "interface AuthContextType extends AuthState \x7b\n" ++
    "  login: (email: string, password: string) => Promise<void>\n" ++
    "  register: (name: string, email: string, password: string) => Promise<void>\n" ++
    "  logout: () => void\n" ++
    "\x7d\n" ++
    "\n" ++
    "export const AuthContext = createContext<AuthContextType | undefined>(undefined)\n" ++
    "\n" ++
    "export function AuthProvider(\x7b children \x7d: \x7b children: ReactNode \x7d) \x7b\n" ++
    "  const [state, setState] = useState<AuthState>(\x7b\n" ++
    "    user: null,\n" ++
    "    token: null,\n" ++
    "    isAuthenticated: false,\n" ++
    "    isLoading: true,\n" ++
    "  \x7d)\n" ++
    "\n" ++
    "  useEffect(() => \x7b\n" ++
    "    const token = storage.get<string>(STORAGE_KEYS.AUTH_TOKEN)\n" ++
    "    const user = storage.get<User>(STORAGE_KEYS.USER)\n" ++
    "    \n" ++
    "    if (token && user) \x7b\n" ++
    "      setState(\x7b\n" ++
    "        user,\n" ++
    "        token,\n" ++
    "        isAuthenticated: true,\n" ++
    "        isLoading: false,\n" ++
    "      \x7d)\n" ++
    "    \x7d else \x7b\n" ++
    "      setState((prev) => (\x7b ...prev, isLoading: false \x7d))\n" ++
    "    \x7d\n" ++
    "  \x7d, [])\n" ++
    "\n" ++
    "  const login = async (email: string, password: string) => \x7b\n" ++
    "    setState((prev) => (\x7b ...prev, isLoading: true \x7d))\n" ++
    "    try \x7b\n" ++
    "      const \x7b user, token \x7d = await authService.login(email, password)\n" ++
    "      storage.set(STORAGE_KEYS.AUTH_TOKEN, token)\n" ++
    "      storage.set(STORAGE_KEYS.USER, user)\n" ++
    "      setState(\x7b user, token, isAuthenticated: true, isLoading: false \x7d)\n" ++
    "    \x7d catch (error) \x7b\n" ++
    "      setState((prev) => (\x7b ...prev, isLoading: false \x7d))\n" ++
    "      throw error\n" ++
    "    \x7d\n" ++
    "  \x7d\n" ++
    "\n" ++
    "  const register = async (name: string, email: string, password: string) => \x7b\n" ++
    "    setState((prev) => (\x7b ...prev, isLoading: true \x7d))\n" ++
    "    try \x7b\n" ++
    "      const \x7b user, token \x7d = await authService.register(name, email, password)\n" ++
    "      storage.set(STORAGE_KEYS.AUTH_TOKEN, token)\n" ++
    "      storage.set(STORAGE_KEYS.USER, user)\n" ++
    "      setState(\x7b user, token, isAuthenticated: true, isLoading: false \x7d)\n" ++
    "    \x7d catch (error) \x7b\n" ++
    "      setState((prev) => (\x7b ...prev, isLoading: false \x7d))\n" ++
    "      throw error\n" ++
    "    \x7d\n" ++
    "  \x7d\n" ++
    "\n" ++
    "  const logout = () => \x7b\n" ++
    "    storage.remove(STORAGE_KEYS.AUTH_TOKEN)\n" ++
    "    storage.remove(STORAGE_KEYS.USER)\n" ++
    "    setState(\x7b user: null, token: null, isAuthenticated: false, isLoading: false \x7d)\n" ++
    "  \x7d\n" ++
    "\n" ++
    "  return (\n" ++
    "    <AuthContext.Provider value=\x7b\x7b ...state, login, register, logout \x7d\x7d>\n" ++
    "      \x7bchildren\x7d\n" ++
    "    </AuthContext.Provider>\n" ++
    "  )\n" ++
    "\x7d\n" ++
    "\n" ++
    "export function useAuthContext() \x7b\n" ++
    "  const context = useContext(AuthContext)\n" ++
    "  if (context === undefined) \x7b\n" ++
    "    throw new Error(\x27useAuthContext must be used within an AuthProvider\x27)\n" ++
    "  \x7d\n" ++
    "  return context\n" ++
    "\x7d\n"

/-- `generateUseApi` from the synthesis engine: the template literal of the source, verbatim. -/
def generateUseApi : String :=
    "import \x7b useState, useCallback \x7d from \x27react\x27\n" ++
    "import type \x7b Status \x7d from \x27@/types\x27\n" ++
    "\n" ++
    "interface UseApiOptions<T, P extends unknown[]> \x7b\n" ++
    "  fn: (...args: P) => Promise<T>\n" ++
    "  onSuccess?: (data: T) => void\n" ++
    "  onError?: (error: Error) => void\n" ++
    "\x7d\n" ++
    "\n" ++
    "export function useApi<T, P extends unknown[] = []>(\x7b\n" ++
    "  fn,\n" ++
    "  onSuccess,\n" ++
    "  onError,\n" ++
    "\x7d: UseApiOptions<T, P>) \x7b\n" ++
    "  const [data, setData] = useState<T | null>(null)\n" ++
    "  const [error, setError] = useState<Error | null>(null)\n" ++
    "  const [status, setStatus] = useState<Status>(\x27idle\x27)\n" ++
    "\n" ++
    "  const execute = useCallback(async (...args: P) => \x7b\n" ++
    "    setStatus(\x27loading\x27)\n" ++
    "    setError(null)\n" ++
    "    \n" ++
    "    try \x7b\n" ++
    "      const result = await fn(...args)\n" ++
    "      setData(result)\n" ++
    "      setStatus(\x27success\x27)\n" ++
    "      onSuccess?.(result)\n" ++
    "      return result\n" ++
    "    \x7d catch (err) \x7b\n" ++
    "      const error = err instanceof Error ? err : new Error(\x27Unknown error\x27)\n" ++
    "      setError(error)\n" ++
    "      setStatus(\x27error\x27)\n" ++
    "      onError?.(error)\n" ++
    "      throw error\n" ++
    "    \x7d\n" ++
    "  \x7d, [fn, onSuccess, onError])\n" ++
    "\n" ++
    "  const reset = useCallback(() => \x7b\n" ++
    "    setData(null)\n" ++
    "    setError(null)\n" ++
    "    setStatus(\x27idle\x27)\n" ++
    "  \x7d, [])\n" ++
    "\n" ++
    "  return \x7b\n" ++
    "    data,\n" ++
    "    error,\n" ++
    "    status,\n" ++
    "    isLoading: status === \x27loading\x27,\n" ++
    "    isSuccess: status === \x27success\x27,\n" ++
    "    isError: status === \x27error\x27,\n" ++
    "    execute,\n" ++
    "    reset,\n" ++
    "  \x7d\n" ++
    "\x7d\n"

/-- `generateUseAuth` from the synthesis engine: the template literal of the source, verbatim. -/
def generateUseAuth : String :=
    "\x27use client\x27\n" ++
    "\n" ++
    "import \x7b useContext \x7d from \x27react\x27\n" ++
    "import \x7b AuthContext \x7d from \x27@/context/AuthContext\x27\n" ++
    "\n" ++
    "export function useAuth() \x7b\n" ++
    "  const context = useContext(AuthContext)\n" ++
    "  if (!context) \x7b\n" ++
    "    throw new Error(\x27useAuth must be used within AuthProvider\x27)\n" ++
    "  \x7d\n" ++
    "  return context\n" ++
    "\x7d\n"

/-- `generateApiService` from the synthesis engine: the template literal of the source, verbatim. -/
def generateApiService (_domain : String) : String :=
    "import axios, \x7b type AxiosInstance, type AxiosRequestConfig \x7d from \x27axios\x27\n" ++
    "import \x7b API_BASE_URL, API_TIMEOUT \x7d from \x27@/constants/api\x27\n" ++
    "import \x7b storage \x7d from \x27@/utils/storage\x27\n" ++
    "import \x7b STORAGE_KEYS \x7d from \x27@/constants\x27\n" ++
    "import \x7b logger \x7d from \x27@/utils/logger\x27\n" ++
    "\n" ++
    "class ApiService \x7b\n" ++
    "  private client: AxiosInstance\n" ++
    "\n" ++
    "  constructor() \x7b\n" ++
    "    this.client = axios.create(\x7b\n" ++
    "      baseURL: API_BASE_URL,\n" ++
    "      timeout: API_TIMEOUT,\n" ++
    "      headers: \x7b\n" ++
    "        \x27Content-Type\x27: \x27application/json\x27,\n" ++
    "      \x7d,\n" ++
    "    \x7d)\n" ++
    "\n" ++
    "    this.setupInterceptors()\n" ++
    "  \x7d\n" ++
    "\n" ++
    "  private setupInterceptors() \x7b\n" ++
    "    // Request interceptor\n" ++
    "    this.client.interceptors.request.use(\n" ++
    "      (config) => \x7b\n" ++
    "        const token = storage.get<string>(STORAGE_KEYS.AUTH_TOKEN)\n" ++
    "        if (token) \x7b\n" ++
    "          config.headers.Authorization = \x60Bearer $\x7btoken\x7d\x60\n" ++
    "        \x7d\n" ++
    "        logger.debug(\x27API Request:\x27, config.method?.toUpperCase(), config.url)\n" ++
    "        return config\n" ++
    "      \x7d,\n" ++
    "      (error) => \x7b\n" ++
    "        logger.error(\x27Request error:\x27, error)\n" ++
    "        return Promise.reject(error)\n" ++
    "      \x7d\n" ++
    "    )\n" ++
    "\n" ++
    "    // Response interceptor\n" ++
    "    this.client.interceptors.response.use(\n" ++
    "      (response) => \x7b\n" ++
    "        logger.debug(\x27API Response:\x27, response.status, response.config.url)\n" ++
    "        return response\n" ++
    "      \x7d,\n" ++
    "      (error) => \x7b\n" ++
    "        logger.error(\x27Response error:\x27, error.response?.status, error.message)\n" ++
    "        \n" ++
    "        if (error.response?.status === 401) \x7b\n" ++
    "          storage.remove(STORAGE_KEYS.AUTH_TOKEN)\n" ++
    "          storage.remove(STORAGE_KEYS.USER)\n" ++
    "          window.location.href = \x27/login\x27\n" ++
    "        \x7d\n" ++
    "        \n" ++
    "        return Promise.reject(error)\n" ++
    "      \x7d\n" ++
    "    )\n" ++
    "  \x7d\n" ++
    "\n" ++
    "  async get<T>(url: string, config?: AxiosRequestConfig): Promise<T> \x7b\n" ++
    "    const response = await this.client.get<T>(url, config)\n" ++
    "    return response.data\n" ++
    "  \x7d\n" ++
    "\n" ++
    "  async post<T>(url: string, data?: unknown, config?: AxiosRequestConfig): Promise<T> \x7b\n" ++
    "    const response = await this.client.post<T>(url, data, config)\n" ++
    "    return response.data\n" ++
    "  \x7d\n" ++
    "\n" ++
    "  async put<T>(url: string, data?: unknown, config?: AxiosRequestConfig): Promise<T> \x7b\n" ++
    "    const response = await this.client.put<T>(url, data, config)\n" ++
    "    return response.data\n" ++
    "  \x7d\n" ++
    "\n" ++
    "  async patch<T>(url: string, data?: unknown, config?: AxiosRequestConfig): Promise<T> \x7b\n" ++
    "    const response = await this.client.patch<T>(url, data, config)\n" ++
    "    return response.data\n" ++
    "  \x7d\n" ++
    "\n" ++
    "  async delete<T>(url: string, config?: AxiosRequestConfig): Promise<T> \x7b\n" ++
    "    const response = await this.client.delete<T>(url, config)\n" ++
    "    return response.data\n" ++
    "  \x7d\n" ++
    "\x7d\n" ++
    "\n" ++
    "export const apiService = new ApiService()\n"

/-- `generateAuthService` from the synthesis engine: the template literal of the source, verbatim. -/
def generateAuthService : String :=
    "import \x7b apiService \x7d from \x27./api.service\x27\n" ++
    "import \x7b API_ENDPOINTS \x7d from \x27@/constants/api\x27\n" ++
    "import type \x7b User \x7d from \x27@/types/user.types\x27\n" ++
    "\n" ++
    "interface AuthResponse \x7b\n" ++
    "  user: User\n" ++
    "  token: string\n" ++
    "\x7d\n" ++
    "\n" ++
    "class AuthService \x7b\n" ++
    "  async login(email: string, password: string): Promise<AuthResponse> \x7b\n" ++
    "    return apiService.post<AuthResponse>(API_ENDPOINTS.AUTH.LOGIN, \x7b email, password \x7d)\n" ++
    "  \x7d\n" ++
    "\n" ++
    "  async register(name: string, email: string, password: string): Promise<AuthResponse> \x7b\n" ++
    "    return apiService.post<AuthResponse>(API_ENDPOINTS.AUTH.REGISTER, \x7b name, email, password \x7d)\n" ++
    "  \x7d\n" ++
    "\n" ++
    "  async logout(): Promise<void> \x7b\n" ++
    "    return apiService.post(API_ENDPOINTS.AUTH.LOGOUT)\n" ++
    "  \x7d\n" ++
    "\n" ++
    "  async getCurrentUser(): Promise<User> \x7b\n" ++
    "    return apiService.get<User>(API_ENDPOINTS.AUTH.ME)\n" ++
    "  \x7d\n" ++
    "\n" ++
    "  async refreshToken(): Promise<\x7b token: string \x7d> \x7b\n" ++
    "    return apiService.post(API_ENDPOINTS.AUTH.REFRESH)\n" ++
    "  \x7d\n" ++
    "\x7d\n" ++
    "\n" ++
    "export const authService = new AuthService()\n"

/-- `generateButtonComponent` from the synthesis engine: the template literal of the source, verbatim. -/
def generateButtonComponent : String :=
    "import \x7b forwardRef, type ButtonHTMLAttributes \x7d from \x27react\x27\n" ++
    "import \x7b cn \x7d from \x27@/utils/helpers\x27\n" ++
    "\n" ++
    "type ButtonVariant = \x27primary\x27 | \x27secondary\x27 | \x27outline\x27 | \x27ghost\x27 | \x27danger\x27\n" ++
    "type ButtonSize = \x27sm\x27 | \x27md\x27 | \x27lg\x27 | \x27icon\x27\n" ++
    "\n" ++
    "const buttonVariants = (variant: ButtonVariant, size: ButtonSize) => \x7b\n" ++
    "  const variantStyles = \x7b\n" ++
    "    primary: \x27bg-primary-600 text-white hover:bg-primary-700\x27,\n" ++
    "    secondary: \x27bg-gray-100 text-gray-900 hover:bg-gray-200\x27,\n" ++
    "    outline: \x27border border-gray-300 bg-transparent hover:bg-gray-50\x27,\n" ++
    "    ghost: \x27bg-transparent hover:bg-gray-100\x27,\n" ++
    "    danger: \x27bg-red-600 text-white hover:bg-red-700\x27,\n" ++
    "  \x7d\n" ++
    "  const sizeStyles = \x7b\n" ++
    "    sm: \x27h-8 px-3 text-sm\x27,\n" ++
    "    md: \x27h-10 px-4 text-sm\x27,\n" ++
    "    lg: \x27h-12 px-6 text-base\x27,\n" ++
    "    icon: \x27h-10 w-10\x27,\n" ++
    "  \x7d\n" ++
    "  return cn(\n" ++
    "    \x27inline-flex items-center justify-center rounded-md font-medium transition-colors focus-visible:outline-none focus-visible:ring-2 focus-visible:ring-offset-2 disabled:pointer-events-none disabled:opacity-50\x27,\n" ++
    "    variantStyles[variant],\n" ++
    "    sizeStyles[size]\n" ++
    "  )\n" ++
    "\x7d\n" ++
    "\n" ++
    "export interface ButtonProps extends ButtonHTMLAttributes<HTMLButtonElement> \x7b\n" ++
    "  variant?: ButtonVariant\n" ++
    "  size?: ButtonSize\n" ++
    "  isLoading?: boolean\n" ++
    "\x7d\n" ++
    "\n" ++
    "export const Button = forwardRef<HTMLButtonElement, ButtonProps>(\n" ++
    "  (\x7b className, variant = \x27primary\x27, size = \x27md\x27, isLoading, disabled, children, ...props \x7d, ref) => \x7b\n" ++
    "    return (\n" ++
    "      <button\n" ++
    "        ref=\x7bref\x7d\n" ++
    "        className=\x7bcn(buttonVariants(variant, size), className)\x7d\n" ++
    "        disabled=\x7bdisabled || isLoading\x7d\n" ++
    "        \x7b...props\x7d\n" ++
    "      >\n" ++
    "        \x7bisLoading ? (\n" ++
    "          <span className=\"flex items-center gap-2\">\n" ++
    "            <svg className=\"h-4 w-4 animate-spin\\\" viewBox=\"0 0 24 24\">\n" ++
    "              <circle className=\"opacity-25\" cx=\"12\" cy=\"12\" r=\"10\" stroke=\"currentColor\" strokeWidth=\"4\" fill=\"none\" />\n" ++
    "              <path\n" ++
    "                className=\"opacity-75\"\n" ++
    "                fill=\"currentColor\"\n" ++
    "                d=\"M4 12a8 8 0 018-8V0C5.373 0 0 5.373 0 12h4z\"\n" ++
    "              />\n" ++
    "            </svg>\n" ++
    "            Loading...\n" ++
    "          </span>\n" ++
    "        ) : (\n" ++
    "          children\n" ++
    "        )\x7d\n" ++
    "      </button>\n" ++
    "    )\n" ++
    "  \x7d\n" ++
    ")\n" ++
    "\n" ++
    "Button.displayName = \x27Button\x27\n"

/-- `generateInputComponent` from the synthesis engine: the template literal of the source, verbatim. -/
def generateInputComponent : String :=
    "import \x7b forwardRef, type InputHTMLAttributes \x7d from \x27react\x27\n" ++
    "import \x7b cn \x7d from \x27@/utils/helpers\x27\n" ++
    "\n" ++
    "type InputSize = \x27sm\x27 | \x27md\x27 | \x27lg\x27\n" ++
    "\n" ++
    "const inputVariants = (size: InputSize = \x27md\x27, className?: string) => \x7b\n" ++
    "  const sizeStyles = \x7b\n" ++
    "    sm: \x27h-8 px-3 text-sm\x27,\n" ++
    "    md: \x27h-10 px-3 text-sm\x27,\n" ++
    "    lg: \x27h-12 px-4 text-base\x27,\n" ++
    "  \x7d\n" ++
    "  return cn(\n" ++
    "    \x27flex w-full rounded-md border border-gray-300 bg-white file:border-0 file:bg-transparent file:text-sm file:font-medium placeholder:text-gray-400 focus-visible:outline-none focus-visible:ring-2 focus-visible:ring-primary-500 focus-visible:ring-offset-2 disabled:cursor-not-allowed disabled:opacity-50\x27,\n" ++
    "    sizeStyles[size],\n" ++
    "    className\n" ++
    "  )\n" ++
    "\x7d\n" ++
    "\n" ++
    "export interface InputProps extends InputHTMLAttributes<HTMLInputElement> \x7b\n" ++
    "  label?: string\n" ++
    "  error?: string\n" ++
    "  inputSize?: InputSize\n" ++
    "\x7d\n" ++
    "\n" ++
    "export const Input = forwardRef<HTMLInputElement, InputProps>(\n" ++
    "  (\x7b className, label, error, inputSize = \x27md\x27, id, ...props \x7d, ref) => \x7b\n" ++
    "    const inputId = id || props.name\n" ++
    "\n" ++
    "    return (\n" ++
    "      <div className=\"w-full\">\n" ++
    "        \x7blabel && (\n" ++
    "          <label htmlFor=\x7binputId\x7d className=\"mb-1.5 block text-sm font-medium text-gray-700\">\n" ++
    "            \x7blabel\x7d\n" ++
    "          </label>\n" ++
    "        )\x7d\n" ++
    "        <input\n" ++
    "          ref=\x7bref\x7d\n" ++
    "          id=\x7binputId\x7d\n" ++
    "          className=\x7bcn(\n" ++
    "            inputVariants(inputSize),\n" ++
    "            error && \x27border-red-500 focus:border-red-500 focus:ring-red-500/20\x27,\n" ++
    "            className\n" ++
    "          )\x7d\n" ++
    "          \x7b...props\x7d\n" ++
    "        />\n" ++
    "        \x7berror && <p className=\"mt-1 text-sm text-red-500\">\x7berror\x7d</p>\x7d\n" ++
    "      </div>\n" ++
    "    )\n" ++
    "  \x7d\n" ++
    ")\n" ++
    "\n" ++
    "Input.displayName = \x27Input\x27\n"

/-- `generateCardComponent` from the synthesis engine: the template literal of the source, verbatim. -/
def generateCardComponent : String :=
    "import type \x7b HTMLAttributes, ReactNode \x7d from \x27react\x27\n" ++
    "import \x7b cn \x7d from \x27@/utils/helpers\x27\n" ++
    "\n" ++
    "type CardVariant = \x27default\x27 | \x27bordered\x27 | \x27elevated\x27\n" ++
    "\n" ++
    "const cardVariants = (variant: CardVariant = \x27default\x27) => \x7b\n" ++
    "  const variants = \x7b\n" ++
    "    default: \x27rounded-lg border border-gray-200 bg-white\x27,\n" ++
    "    bordered: \x27rounded-lg border-2 border-gray-300 bg-white\x27,\n" ++
    "    elevated: \x27rounded-lg bg-white shadow-md hover:shadow-lg transition-shadow\x27,\n" ++
    "  \x7d\n" ++
    "  return variants[variant]\n" ++
    "\x7d\n" ++
    "\n" ++
    "export interface CardProps extends HTMLAttributes<HTMLDivElement> \x7b\n" ++
    "  variant?: CardVariant\n" ++
    "  children: ReactNode\n" ++
    "\x7d\n" ++
    "\n" ++
    "export function Card(\x7b className, variant = \x27default\x27, children, ...props \x7d: CardProps) \x7b\n" ++
    "  return (\n" ++
    "    <div className=\x7bcn(cardVariants(variant), className)\x7d \x7b...props\x7d>\n" ++
    "      \x7bchildren\x7d\n" ++
    "    </div>\n" ++
    "  )\n" ++
    "\x7d\n" ++
    "\n" ++
    "export function CardHeader(\x7b className, children, ...props \x7d: HTMLAttributes<HTMLDivElement>) \x7b\n" ++
    "  return (\n" ++
    "    <div className=\x7bcn(\x27px-6 py-4 border-b border-gray-100\x27, className)\x7d \x7b...props\x7d>\n" ++
    "      \x7bchildren\x7d\n" ++
    "    </div>\n" ++
    "  )\n" ++
    "\x7d\n" ++
    "\n" ++
    "export function CardTitle(\x7b className, children, ...props \x7d: HTMLAttributes<HTMLHeadingElement>) \x7b\n" ++
    "  return (\n" ++
    "    <h3 className=\x7bcn(\x27text-lg font-semibold text-gray-900\x27, className)\x7d \x7b...props\x7d>\n" ++
    "      \x7bchildren\x7d\n" ++
    "    </h3>\n" ++
    "  )\n" ++
    "\x7d\n" ++
    "\n" ++
    "export function CardContent(\x7b className, children, ...props \x7d: HTMLAttributes<HTMLDivElement>) \x7b\n" ++
    "  return (\n" ++
    "    <div className=\x7bcn(\x27px-6 py-4\x27, className)\x7d \x7b...props\x7d>\n" ++
    "      \x7bchildren\x7d\n" ++
    "    </div>\n" ++
    "  )\n" ++
    "\x7d\n" ++
    "\n" ++
    "export function CardFooter(\x7b className, children, ...props \x7d: HTMLAttributes<HTMLDivElement>) \x7b\n" ++
    "  return (\n" ++
    "    <div className=\x7bcn(\x27px-6 py-4 border-t border-gray-100\x27, className)\x7d \x7b...props\x7d>\n" ++
    "      \x7bchildren\x7d\n" ++
    "    </div>\n" ++
    "  )\n" ++
    "\x7d\n"

/-- `generateModalComponent` from the synthesis engine: the template literal of the source, verbatim. -/
def generateModalComponent : String :=
    "import \x7b type ReactNode, useEffect, useCallback \x7d from \x27react\x27\n" ++
    "import \x7b cn \x7d from \x27@/utils/helpers\x27\n" ++
    "\n" ++
    "export interface ModalProps \x7b\n" ++
    "  isOpen: boolean\n" ++
    "  onClose: () => void\n" ++
    "  title?: string\n" ++
    "  children: ReactNode\n" ++
    "  className?: string\n" ++
    "  size?: \x27sm\x27 | \x27md\x27 | \x27lg\x27 | \x27xl\x27\n" ++
    "\x7d\n" ++
    "\n" ++
    "const sizeClasses = \x7b\n" ++
    "  sm: \x27max-w-sm\x27,\n" ++
    "  md: \x27max-w-md\x27,\n" ++
    "  lg: \x27max-w-lg\x27,\n" ++
    "  xl: \x27max-w-xl\x27,\n" ++
    "\x7d\n" ++
    "\n" ++
    "export function Modal(\x7b isOpen, onClose, title, children, className, size = \x27md\x27 \x7d: ModalProps) \x7b\n" ++
    "  const handleEscape = useCallback(\n" ++
    "    (e: KeyboardEvent) => \x7b\n" ++
    "      if (e.key === \x27Escape\x27) onClose()\n" ++
    "    \x7d,\n" ++
    "    [onClose]\n" ++
    "  )\n" ++
    "\n" ++
    "  useEffect(() => \x7b\n" ++
    "    if (isOpen) \x7b\n" ++
    "      document.addEventListener(\x27keydown\x27, handleEscape)\n" ++
    "      document.body.style.overflow = \x27hidden\x27\n" ++
    "    \x7d\n" ++
    "    return () => \x7b\n" ++
    "      document.removeEventListener(\x27keydown\x27, handleEscape)\n" ++
    "      document.body.style.overflow = \x27unset\x27\n" ++
    "    \x7d\n" ++
    "  \x7d, [isOpen, handleEscape])\n" ++
    "\n" ++
    "  if (!isOpen) return null\n" ++
    "\n" ++
    "  return (\n" ++
    "    <div className=\"fixed inset-0 z-50 flex items-center justify-center\">\n" ++
    "      <div className=\"fixed inset-0 bg-black/50 transition-opacity\" onClick=\x7bonClose\x7d />\n" ++
    "      <div\n" ++
    "        className=\x7bcn(\n" ++
    "          \x27relative z-10 w-full rounded-lg bg-white p-6 shadow-xl\x27,\n" ++
    "          sizeClasses[size],\n" ++
    "          className\n" ++
    "        )\x7d\n" ++
    "      >\n" ++
    "        \x7btitle && (\n" ++
    "          <div className=\"mb-4 flex items-center justify-between\">\n" ++
    "            <h2 className=\"text-lg font-semibold text-gray-900\">\x7btitle\x7d</h2>\n" ++
    "            <button\n" ++
    "              onClick=\x7bonClose\x7d\n" ++
    "              className=\"rounded-md p-1 text-gray-400 hover:bg-gray-100 hover:text-gray-600\"\n" ++
    "            >\n" ++
    "              <svg className=\"h-5 w-5\" viewBox=\"0 0 20 20\" fill=\"currentColor\">\n" ++
    "                <path\n" ++
    "                  fillRule=\"evenodd\"\n" ++
    "                  d=\"M4.293 4.293a1 1 0 011.414 0L10 8.586l4.293-4.293a1 1 0 111.414 1.414L11.414 10l4.293 4.293a1 1 0 01-1.414 1.414L10 11.414l-4.293 4.293a1 1 0 01-1.414-1.414L8.586 10 4.293 5.707a1 1 0 010-1.414z\"\n" ++
    "                  clipRule=\"evenodd\"\n" ++
    "                />\n" ++
    "              </svg>\n" ++
    "            </button>\n" ++
    "          </div>\n" ++
    "        )\x7d\n" ++
    "        \x7bchildren\x7d\n" ++
    "      </div>\n" ++
    "    </div>\n" ++
    "  )\n" ++
    "\x7d\n"

/-- `generateLoaderComponent` from the synthesis engine: the template literal of the source, verbatim. -/
def generateLoaderComponent : String :=
    "import \x7b cn \x7d from \x27@/utils/helpers\x27\n" ++
    "\n" ++
    "interface LoaderProps \x7b\n" ++
    "  size?: \x27sm\x27 | \x27md\x27 | \x27lg\x27\n" ++
    "  className?: string\n" ++
    "\x7d\n" ++
    "\n" ++
    "const sizeClasses = \x7b\n" ++
    "  sm: \x27h-4 w-4\x27,\n" ++
    "  md: \x27h-8 w-8\x27,\n" ++
    "  lg: \x27h-12 w-12\x27,\n" ++
    "\x7d\n" ++
    "\n" ++
    "export function Loader(\x7b size = \x27md\x27, className \x7d: LoaderProps) \x7b\n" ++
    "  return (\n" ++
    "    <div className=\x7bcn(\x27flex items-center justify-center\x27, className)\x7d>\n" ++
    "      <svg\n" ++
    "        className=\x7bcn(\x27animate-spin text-primary-600\x27, sizeClasses[size])\x7d\n" ++
    "        xmlns=\"http://www.w3.org/2000/svg\"\n" ++
    "        fill=\"none\"\n" ++
    "        viewBox=\"0 0 24 24\"\n" ++
    "      >\n" ++
    "        <circle\n" ++
    "          className=\"opacity-25\"\n" ++
    "          cx=\"12\"\n" ++
    "          cy=\"12\"\n" ++
    "          r=\"10\"\n" ++
    "          stroke=\"currentColor\"\n" ++
    "          strokeWidth=\"4\"\n" ++
    "        />\n" ++
    "        <path\n" ++
    "          className=\"opacity-75\"\n" ++
    "          fill=\"currentColor\"\n" ++
    "          d=\"M4 12a8 8 0 018-8V0C5.373 0 0 5.373 0 12h4zm2 5.291A7.962 7.962 0 014 12H0c0 3.042 1.135 5.824 3 7.938l3-2.647z\"\n" ++
    "        />\n" ++
    "      </svg>\n" ++
    "    </div>\n" ++
    "  )\n" ++
    "\x7d\n"

/-- `generateLayoutComponent` from the synthesis engine: the template literal of the source, verbatim. -/
def generateLayoutComponent : String :=
    "import type \x7b ReactNode \x7d from \x27react\x27\n" ++
    "import \x7b Header \x7d from \x27./Header\x27\n" ++
    "import \x7b Footer \x7d from \x27./Footer\x27\n" ++
    "\n" ++
    "interface LayoutProps \x7b\n" ++
    "  children: ReactNode\n" ++
    "\x7d\n" ++
    "\n" ++
    "export function Layout(\x7b children \x7d: LayoutProps) \x7b\n" ++
    "  return (\n" ++
    "    <div className=\"flex min-h-screen flex-col\">\n" ++
    "      <Header />\n" ++
    "      <main className=\"flex-1\">\x7bchildren\x7d</main>\n" ++
    "      <Footer />\n" ++
    "    </div>\n" ++
    "  )\n" ++
    "\x7d\n"

/-- `generateNotFoundPage` from the synthesis engine: the template literal of the source, verbatim. -/
def generateNotFoundPage : String :=
    "import \x7b Link \x7d from \x27react-router-dom\x27\n" ++
    "import \x7b ROUTES \x7d from \x27@/constants/routes\x27\n" ++
    "import \x7b Button \x7d from \x27@/components/common\x27\n" ++
    "\n" ++
    "export function NotFound() \x7b\n" ++
    "  return (\n" ++
    "    <div className=\"flex min-h-[calc(100vh-4rem)] items-center justify-center\">\n" ++
    "      <div className=\"text-center\">\n" ++
    "        <h1 className=\"text-9xl font-bold text-gray-200\">404</h1>\n" ++
    "        <h2 className=\"mt-4 text-3xl font-bold text-gray-900\">Page Not Found</h2>\n" ++
    "        <p className=\"mt-4 text-lg text-gray-600\">\n" ++
    "          Sorry, we couldn\x27t find the page you\x27re looking for.\n" ++
    "        </p>\n" ++
    "        <Link to=\x7bROUTES.HOME\x7d>\n" ++
    "          <Button className=\"mt-8\">Go Home</Button>\n" ++
    "        </Link>\n" ++
    "      </div>\n" ++
    "    </div>\n" ++
    "  )\n" ++
    "\x7d\n"
/-- `generatePackageJson` from the synthesis engine:
`JSON.stringify({...}, null, 2)` with the project name as the only
varying field. -/
def generatePackageJson (projectName : String) : String :=
    "\x7b\n" ++
    "  \"name\": \"" ++ jsonEscape projectName ++ "\",\n" ++
    "  \"private\": true,\n" ++
    "  \"version\": \"1.0.0\",\n" ++
    "  \"type\": \"module\",\n" ++
    "  \"scripts\": \x7b\n" ++
    "    \"dev\": \"vite\",\n" ++
    "    \"build\": \"tsc && vite build\",\n" ++
    "    \"lint\": \"eslint . --ext ts,tsx --report-unused-disable-directives --max-warnings 0\",\n" ++
    "    \"preview\": \"vite preview\",\n" ++
    "    \"test\": \"vitest\",\n" ++
    "    \"test:coverage\": \"vitest --coverage\"\n" ++
    "  \x7d,\n" ++
    "  \"dependencies\": \x7b\n" ++
    "    \"react\": \"^18.3.1\",\n" ++
    "    \"react-dom\": \"^18.3.1\",\n" ++
    "    \"react-router-dom\": \"^6.26.0\",\n" ++
    "    \"axios\": \"^1.7.3\",\n" ++
    "    \"clsx\": \"^2.1.1\",\n" ++
    "    \"tailwind-merge\": \"^2.4.0\"\n" ++
    "  \x7d,\n" ++
    "  \"devDependencies\": \x7b\n" ++
    "    \"@types/react\": \"^18.3.3\",\n" ++
    "    \"@types/react-dom\": \"^18.3.0\",\n" ++
    "    \"@typescript-eslint/eslint-plugin\": \"^8.0.0\",\n" ++
    "    \"@typescript-eslint/parser\": \"^8.0.0\",\n" ++
    "    \"@vitejs/plugin-react\": \"^4.3.1\",\n" ++
    "    \"autoprefixer\": \"^10.4.20\",\n" ++
    "    \"eslint\": \"^8.57.0\",\n" ++
    "    \"eslint-plugin-react-hooks\": \"^4.6.2\",\n" ++
    "    \"eslint-plugin-react-refresh\": \"^0.4.9\",\n" ++
    "    \"postcss\": \"^8.4.40\",\n" ++
    "    \"tailwindcss\": \"^3.4.7\",\n" ++
    "    \"typescript\": \"^5.5.4\",\n" ++
    "    \"vite\": \"^5.4.0\",\n" ++
    "    \"vitest\": \"^2.0.5\",\n" ++
    "    \"@testing-library/react\": \"^16.0.0\",\n" ++
    "    \"@testing-library/jest-dom\": \"^6.4.8\",\n" ++
    "    \"jsdom\": \"^24.1.1\"\n" ++
    "  \x7d\n" ++
    "\x7d"

/-- `generateTsConfig` from the synthesis engine: the constant
`JSON.stringify({...}, null, 2)` output. -/
def generateTsConfig : String :=
    "\x7b\n" ++
    "  \"compilerOptions\": \x7b\n" ++
    "    \"target\": \"ES2020\",\n" ++
    "    \"useDefineForClassFields\": true,\n" ++
    "    \"lib\": [\n" ++
    "      \"ES2020\",\n" ++
    "      \"DOM\",\n" ++
    "      \"DOM.Iterable\"\n" ++
    "    ],\n" ++
    "    \"module\": \"ESNext\",\n" ++
    "    \"skipLibCheck\": true,\n" ++
    "    \"moduleResolution\": \"bundler\",\n" ++
    "    \"allowImportingTsExtensions\": true,\n" ++
    "    \"resolveJsonModule\": true,\n" ++
    "    \"isolatedModules\": true,\n" ++
    "    \"noEmit\": true,\n" ++
    "    \"jsx\": \"react-jsx\",\n" ++
    "    \"strict\": true,\n" ++
    "    \"noUnusedLocals\": true,\n" ++
    "    \"noUnusedParameters\": true,\n" ++
    "    \"noFallthroughCasesInSwitch\": true,\n" ++
    "    \"baseUrl\": \".\",\n" ++
    "    \"paths\": \x7b\n" ++
    "      \"@/*\": [\n" ++
    "        \"src/*\"\n" ++
    "      ]\n" ++
    "    \x7d\n" ++
    "  \x7d,\n" ++
    "  \"include\": [\n" ++
    "    \"src\"\n" ++
    "  ],\n" ++
    "  \"references\": [\n" ++
    "    \x7b\n" ++
    "      \"path\": \"./tsconfig.node.json\"\n" ++
    "    \x7d\n" ++
    "  ]\n" ++
    "\x7d"

/-- `generateTsConfigNode` from the synthesis engine: the constant
`JSON.stringify({...}, null, 2)` output. -/
def generateTsConfigNode : String :=
    "\x7b\n" ++
    "  \"compilerOptions\": \x7b\n" ++
    "    \"composite\": true,\n" ++
    "    \"skipLibCheck\": true,\n" ++
    "    \"module\": \"ESNext\",\n" ++
    "    \"moduleResolution\": \"bundler\",\n" ++
    "    \"allowSyntheticDefaultImports\": true\n" ++
    "  \x7d,\n" ++
    "  \"include\": [\n" ++
    "    \"vite.config.ts\"\n" ++
    "  ]\n" ++
    "\x7d"

/-- The `.prettierrc` artifact:
`JSON.stringify({ semi: false, singleQuote: true, tabWidth: 2, trailingComma: "es5" }, null, 2)`
inlined in `generateCodebase`. -/
def prettierrcText : String :=
    "\x7b\n" ++
    "  \"semi\": false,\n" ++
    "  \"singleQuote\": true,\n" ++
    "  \"tabWidth\": 2,\n" ++
    "  \"trailingComma\": \"es5\"\n" ++
    "\x7d"

/-- The `postcss.config.js` template literal inlined in
`generateCodebase`. -/
def postcssConfigText : String :=
    "export default \x7b\n" ++
    "  plugins: \x7b\n" ++
    "    tailwindcss: \x7b\x7d,\n" ++
    "    autoprefixer: \x7b\x7d,\n" ++
    "  \x7d,\n" ++
    "\x7d"

/-- The `src/vite-env.d.ts` literal inlined in `generateCodebase`. -/
def viteEnvText : String :=
    "/// <reference types=\"vite/client\" />"

/-- The `src/components/common/index.ts` template literal inlined in
`generateCodebase`. -/
def commonComponentsIndexText : String :=
    "export \x7b Button \x7d from \x27./Button\x27\n" ++
    "export \x7b Input \x7d from \x27./Input\x27\n" ++
    "export \x7b Card \x7d from \x27./Card\x27\n" ++
    "export \x7b Modal \x7d from \x27./Modal\x27\n" ++
    "export \x7b Loader \x7d from \x27./Loader\x27\n"

/-- `generateReadme` from the synthesis engine (the `projectName`
argument is accepted but never interpolated by the source template). -/
def generateReadme (_projectName domain : String) (parsedContent : GenParsedContent) : String :=
    "# " ++
    parsedContent.title ++
    "\n" ++
    "\n" ++
    "TypeScript + React codebase generated from " ++
    domain ++
    "\n" ++
    "\n" ++
    (if parsedContent.description = "" then ""
     else "> " ++ parsedContent.description) ++
    "\n" ++
    "\n" ++
    "## Getting Started\n" ++
    "\n" ++
    "\x60\x60\x60bash\n" ++
    "# Install dependencies\n" ++
    "npm install\n" ++
    "\n" ++
    "# Start development server\n" ++
    "npm run dev\n" ++
    "\n" ++
    "# Build for production\n" ++
    "npm run build\n" ++
    "\n" ++
    "# Run tests\n" ++
    "npm test\n" ++
    "\x60\x60\x60\n" ++
    "\n" ++
    "## Project Structure\n" ++
    "\n" ++
    "\x60\x60\x60\n" ++
    "src/\n" ++
    "├── components/      # Reusable UI components\n" ++
    "│   ├── common/      # Button, Input, Card, Modal, Loader\n" ++
    "│   ├── layout/      # Header, Footer, Sidebar, Layout\n" ++
    "│   └── user/        # User-related components\n" ++
    "├── pages/           # Page components\n" ++
    "├── routes/          # Routing configuration\n" ++
    "├── services/        # API and business logic services\n" ++
    "├── controllers/     # Request/response handlers\n" ++
    "├── models/          # Data models and entities\n" ++
    "├── hooks/           # Custom React hooks\n" ++
    "├── context/         # React context providers\n" ++
    "├── middlewares/     # Route and API middlewares\n" ++
    "├── utils/           # Utility functions\n" ++
    "├── types/           # TypeScript type definitions\n" ++
    "├── constants/       # Application constants\n" ++
    "└── styles/          # Global styles and CSS variables\n" ++
    "\x60\x60\x60\n" ++
    "\n" ++
    "## Features\n" ++
    "\n" ++
    "- TypeScript for type safety\n" ++
    "- React 18 with hooks\n" ++
    "- React Router for navigation\n" ++
    "- Tailwind CSS for styling\n" ++
    "- Axios for API calls\n" ++
    "- Vitest for testing\n" ++
    "- ESLint + Prettier for code quality\n" ++
    "\n" ++
    "## License\n" ++
    "\n" ++
    "MIT\n"

/-- `generateIndexHtml` from the synthesis engine. -/
def generateIndexHtml (title : String) : String :=
    "<!DOCTYPE html>\n" ++
    "<html lang=\"en\">\n" ++
    "  <head>\n" ++
    "    <meta charset=\"UTF-8\" />\n" ++
    "    <link rel=\"icon\" type=\"image/svg+xml\" href=\"/vite.svg\" />\n" ++
    "    <meta name=\"viewport\" content=\"width=device-width, initial-scale=1.0\" />\n" ++
    "    <title>" ++
    title ++
    "</title>\n" ++
    "  </head>\n" ++
    "  <body>\n" ++
    "    <div id=\"root\"></div>\n" ++
    "    <script type=\"module\" src=\"/src/main.tsx\"></script>\n" ++
    "  </body>\n" ++
    "</html>\n"

/-- `generateAppTsx` from the synthesis engine: a direct `<Home />`
mount when substantial crawled body HTML is present, otherwise the
`Layout`-wrapped fallback. -/
def generateAppTsx (parsedContent : GenParsedContent) : String :=
  if hasSubstantialBody parsedContent.bodyContent then
    "import Home from \x27./pages/Home\x27\n" ++
    "\n" ++
    "function App() \x7b\n" ++
    "  return <Home />\n" ++
    "\x7d\n" ++
    "\n" ++
    "export default App\n"
  else
    "import \x7b Layout \x7d from \x27./components/layout/Layout\x27\n" ++
    "import Home from \x27./pages/Home\x27\n" ++
    "\n" ++
    "function App() \x7b\n" ++
    "  return (\n" ++
    "    <Layout>\n" ++
    "      <Home />\n" ++
    "    </Layout>\n" ++
    "  )\n" ++
    "\x7d\n" ++
    "\n" ++
    "export default App\n"

/-- `generateConstants` from the synthesis engine: `APP_NAME` is the
title-cased first dot-segment of the domain
(`domain.split(".")[0].charAt(0).toUpperCase() + domain.split(".")[0].slice(1)`,
the expression embedded as `titleCaseOf`). -/
def generateConstants (domain : String) (_parsedContent : GenParsedContent) : String :=
    "export const APP_NAME = \x27" ++
    titleCaseOf domain ++
    "\x27\n" ++
    "export const APP_VERSION = \x271.0.0\x27\n" ++
    "\n" ++
    "export const STORAGE_KEYS = \x7b\n" ++
    "  AUTH_TOKEN: \x27auth_token\x27,\n" ++
    "  USER: \x27user\x27,\n" ++
    "  THEME: \x27theme\x27,\n" ++
    "\x7d as const\n" ++
    "\n" ++
    "export const BREAKPOINTS = \x7b\n" ++
    "  sm: 640,\n" ++
    "  md: 768,\n" ++
    "  lg: 1024,\n" ++
    "  xl: 1280,\n" ++
    "  \x272xl\x27: 1536,\n" ++
    "\x7d as const\n"

/-- `generateApiConstants` from the synthesis engine. -/
def generateApiConstants (domain : String) : String :=
    "export const API_BASE_URL = import.meta.env.VITE_API_URL || \x27https://api." ++
    domain ++
    "\x27\n" ++
    "\n" ++
    "export const API_ENDPOINTS = \x7b\n" ++
    "  AUTH: \x7b\n" ++
    "    LOGIN: \x27/auth/login\x27,\n" ++
    "    REGISTER: \x27/auth/register\x27,\n" ++
    "    LOGOUT: \x27/auth/logout\x27,\n" ++
    "    REFRESH: \x27/auth/refresh\x27,\n" ++
    "    ME: \x27/auth/me\x27,\n" ++
    "  \x7d,\n" ++
    "  USERS: \x7b\n" ++
    "    LIST: \x27/users\x27,\n" ++
    "    DETAIL: (id: string) => \x60/users/$\x7bid\x7d\x60,\n" ++
    "    UPDATE: (id: string) => \x60/users/$\x7bid\x7d\x60,\n" ++
    "    DELETE: (id: string) => \x60/users/$\x7bid\x7d\x60,\n" ++
    "  \x7d,\n" ++
    "\x7d as const\n" ++
    "\n" ++
    "export const API_TIMEOUT = 30000\n"

/-- `generateBundledSiteCss` from the synthesis engine: every fetched
stylesheet (with a source-URL banner) followed by every inline style
block (with a numbered banner), joined by newlines; a fixed placeholder
when no crawl assets are present. -/
def generateBundledSiteCss (parsedContent : GenParsedContent) : String :=
  match parsedContent.crawledAssets with
  | none => "/* No crawled CSS available */\n"
  | some crawledAssets =>
      let parts : List String :=
        (crawledAssets.cssFiles.flatMap (fun cssFile =>
          ["/* Source: " ++ cssFile.1 ++ " */", cssFile.2, ""])) ++
        (crawledAssets.inlineStyles.enum.flatMap (fun p =>
          ["/* Inline style block " ++ toString (p.1 + 1) ++ " */", p.2, ""]))
      String.intercalate "\n" parts
/-- `generateHeaderComponentFromContent` from the synthesis engine: one
`<NavLink>` per parsed navigation item (href defaulting to `#`), with a
fixed `Home` link when there are no items, interpolated into the Header
component template. -/
def generateHeaderComponentFromContent (parsedContent : GenParsedContent) : String :=
  let navItems := parsedContent.navItems
  let navItemsCode := String.intercalate "\n" (navItems.map (fun item =>
    "    <NavLink to=\"" ++
    jsOrS item.href "#" ++
    "\" className=\x7bnavLinkClass\x7d>\n" ++
    "      " ++
    item.text ++
    "\n" ++
    "    </NavLink>"))
  "import \x7b Link, NavLink \x7d from \x27react-router-dom\x27\n" ++
  "import \x7b useAuth \x7d from \x27@/hooks/useAuth\x27\n" ++
  "import \x7b ROUTES \x7d from \x27@/constants/routes\x27\n" ++
  "import \x7b Button \x7d from \x27@/components/common\x27\n" ++
  "import \x7b cn \x7d from \x27@/utils/helpers\x27\n" ++
  "\n" ++
  "export function Header() \x7b\n" ++
  "  const \x7b isAuthenticated, logout, user \x7d = useAuth()\n" ++
  "\n" ++
  "  const navLinkClass = (\x7b isActive \x7d: \x7b isActive: boolean \x7d) =>\n" ++
  "    cn(\n" ++
  "      \x27text-sm font-medium transition-colors hover:text-primary-600\x27,\n" ++
  "      isActive ? \x27text-primary-600\x27 : \x27text-gray-600\x27\n" ++
  "    )\n" ++
  "\n" ++
  "  return (\n" ++
  "    <header className=\"sticky top-0 z-40 w-full border-b border-gray-200 bg-white/80 backdrop-blur-sm\">\n" ++
  "      <div className=\"container flex h-16 items-center justify-between\">\n" ++
  "        <div className=\"flex items-center gap-8\">\n" ++
  "          <Link to=\x7bROUTES.HOME\x7d className=\"text-xl font-bold text-gray-900\">\n" ++
  "            " ++
  jsOrS parsedContent.title "Site" ++
  "\n" ++
  "          </Link>\n" ++
  "          <nav className=\"hidden md:flex items-center gap-6\">\n" ++
  "            " ++
  jsOrS navItemsCode "<NavLink to=\x7bROUTES.HOME\x7d className=\x7bnavLinkClass\x7d>Home</NavLink>" ++
  "\n" ++
  "          </nav>\n" ++
  "        </div>\n" ++
  "        <div className=\"flex items-center gap-4\">\n" ++
  "          \x7bisAuthenticated ? (\n" ++
  "            <>\n" ++
  "              <span className=\"text-sm text-gray-600\">Hi, \x7buser?.name\x7d</span>\n" ++
  "              <Button variant=\"ghost\" size=\"sm\" onClick=\x7blogout\x7d>\n" ++
  "                Logout\n" ++
  "              </Button>\n" ++
  "            </>\n" ++
  "          ) : (\n" ++
  "            <>\n" ++
  "              <Link to=\x7bROUTES.LOGIN\x7d>\n" ++
  "                <Button variant=\"ghost\" size=\"sm\">\n" ++
  "                  Login\n" ++
  "                </Button>\n" ++
  "              </Link>\n" ++
  "              <Link to=\x7bROUTES.REGISTER\x7d>\n" ++
  "                <Button size=\"sm\">Sign Up</Button>\n" ++
  "              </Link>\n" ++
  "            </>\n" ++
  "          )\x7d\n" ++
  "        </div>\n" ++
  "      </div>\n" ++
  "    </header>\n" ++
  "  )\n" ++
  "\x7d\n"

/-- `generateFooterComponentFromContent` from the synthesis engine: one
link group per parsed footer group (group name defaulting to `Links`,
href to `#`), with a fixed Navigation block when there are no groups,
interpolated into the Footer component template. -/
def generateFooterComponentFromContent (parsedContent : GenParsedContent) : String :=
  let footerLinks := parsedContent.footerLinks
  let sectionsCode := String.intercalate "\n" (footerLinks.map (fun s =>
    "          <div>\n" ++
    "            <h4 className=\"font-medium text-gray-900\">" ++
    jsOrS s.«section» "Links" ++
    "</h4>\n" ++
    "            <ul className=\"mt-4 space-y-2\">\n" ++
    "              " ++
    String.intercalate "\n              " (s.links.map (fun link =>
      "<li><a href=\"" ++
      jsOrS link.href "#" ++
      "\" className=\"text-sm text-gray-600 hover:text-primary-600\">" ++
      link.text ++
      "</a></li>")) ++
    "\n" ++
    "            </ul>\n" ++
    "          </div>"))
  "export function Footer() \x7b\n" ++
  "  const currentYear = new Date().getFullYear()\n" ++
  "\n" ++
  "  return (\n" ++
  "    <footer className=\"border-t border-gray-200 bg-gray-50\">\n" ++
  "      <div className=\"container py-12\">\n" ++
  "        <div className=\"grid grid-cols-1 gap-8 md:grid-cols-4\">\n" ++
  "          <div>\n" ++
  "            <h3 className=\"text-lg font-semibold text-gray-900\">" ++
  jsOrS parsedContent.title "Site" ++
  "</h3>\n" ++
  "            <p className=\"mt-2 text-sm text-gray-600\">\n" ++
  "              " ++
  jsOrS parsedContent.description "Building amazing experiences with TypeScript and React." ++
  "\n" ++
  "            </p>\n" ++
  "          </div>\n" ++
  "          " ++
  jsOrS sectionsCode
    ("<div>\n" ++
     "            <h4 className=\"font-medium text-gray-900\">Navigation</h4>\n" ++
     "            <ul className=\"mt-4 space-y-2\">\n" ++
     "              <li><a href=\"#\" className=\"text-sm text-gray-600 hover:text-primary-600\">Home</a></li>\n" ++
     "              <li><a href=\"#\" className=\"text-sm text-gray-600 hover:text-primary-600\">About</a></li>\n" ++
     "            </ul>\n" ++
     "          </div>") ++
  "\n" ++
  "        </div>\n" ++
  "        <div className=\"mt-8 border-t border-gray-200 pt-8 text-center\">\n" ++
  "          <p className=\"text-sm text-gray-600\">\n" ++
  "            &copy; \x7bcurrentYear\x7d " ++
  jsOrS parsedContent.title "Site" ++
  ". All rights reserved.\n" ++
  "          </p>\n" ++
  "        </div>\n" ++
  "      </div>\n" ++
  "    </footer>\n" ++
  "  )\n" ++
  "\x7d\n"

/-- `generateSectionComponentFromContent` from the synthesis engine: a
`Section<index>` component with one card per section item (image/link
only when truthy), a `lg:grid-cols-` count of
`Math.min(section.columns || 3, items.length || 3)`, and fixed
placeholder markup when there are no items. -/
def generateSectionComponentFromContent («section» : ContentSection) (index : Nat)
    (_colors : ColorPalette) : String :=
  let items := «section».items.getD []
  let itemsCode :=
    if 0 < items.length then
      String.intercalate "\n" (items.enum.map (fun p =>
        "    <div key=\"" ++
        toString p.1 ++
        "\" className=\"rounded-lg border border-gray-200 p-6 hover:shadow-md transition-shadow\">\n" ++
        "      " ++
        (match truthyOpt p.2.image with
         | some img =>
             "<img src=\"" ++ img ++ "\" alt=\"" ++ p.2.title ++
             "\" className=\"mb-4 h-48 w-full object-cover rounded\" />"
         | none => "") ++
        "\n" ++
        "      <h3 className=\"font-semibold text-gray-900\">" ++
        jsOrS p.2.title "Item" ++
        "</h3>\n" ++
        "      <p className=\"mt-2 text-sm text-gray-600\">" ++
        jsOrS p.2.description "" ++
        "</p>\n" ++
        "      " ++
        (match truthyOpt p.2.link with
         | some l =>
             "<a href=\"" ++ l ++
             "\" className=\"mt-4 inline-block text-primary-600 font-medium\">Learn more →</a>"
         | none => "") ++
        "\n" ++
        "    </div>"))
    else "<div className=\"col-span-full text-center py-8 text-gray-500\">Content loading...</div>"
  let columns := jsOrN «section».columns 3
  let maxColumns := min columns (if items.length = 0 then 3 else items.length)
  "export function Section" ++
  toString index ++
  "() \x7b\n" ++
  "  return (\n" ++
  "    <section className=\"py-16 bg-gray-50\">\n" ++
  "      <div className=\"container\">\n" ++
  "        <div className=\"mb-12 text-center\">\n" ++
  "          <h2 className=\"text-3xl font-bold text-gray-900\">" ++
  jsOrS «section».heading ("Section " ++ toString index) ++
  "</h2>\n" ++
  "          " ++
  (if «section».content = "" then ""
   else "<p className=\"mt-4 text-lg text-gray-600\">" ++ «section».content ++ "</p>") ++
  "\n" ++
  "        </div>\n" ++
  "        " ++
  (if 0 < items.length then
    "<div className=\"grid gap-6 sm:grid-cols-2 lg:grid-cols-" ++
    toString maxColumns ++
    "\">\n" ++
    "          " ++
    itemsCode ++
    "\n" ++
    "        </div>"
   else "<div className=\"text-center py-8 text-gray-600\">No items to display</div>") ++
  "\n" ++
  "      </div>\n" ++
  "    </section>\n" ++
  "  )\n" ++
  "\x7d\n"

/-- `generateHomePageFromContent` from the synthesis engine: with
substantial crawled body HTML the page is a `dangerouslySetInnerHTML`
mount of the JSX-converted body (backticks and dollars escaped for the
embedding template literal); otherwise the hero/sections/CTA fallback
page over the parsed sections. -/
def generateHomePageFromContent (htmlToJsx : String → String)
    (parsedContent : GenParsedContent) : String :=
  if hasSubstantialBody parsedContent.bodyContent then
    let jsxContent := htmlToJsx (parsedContent.bodyContent.getD "")
    "export default function Home() \x7b\n" ++
    "  return (\n" ++
    "    <div \n" ++
    "      className=\"site-content\"\n" ++
    "      dangerouslySetInnerHTML=\x7b\x7b \n" ++
    "        __html: \x60" ++
    sReplaceAll (sReplaceAll jsxContent "\x60" "\\\x60") "$" "\\$" ++
    "\x60 \n" ++
    "      \x7d\x7d \n" ++
    "    />\n" ++
    "  )\n" ++
    "\x7d\n"
  else
    let sectionImports := String.intercalate "\n"
      ((List.range parsedContent.sections.length).map (fun i =>
        "  " ++ ("Section" ++ toString (i + 1)) ++ ","))
    let sectionComponents := String.intercalate "\n"
      ((List.range parsedContent.sections.length).map (fun i =>
        "      <Section" ++ toString (i + 1) ++ " />"))
    let sectionsContent := jsOrS sectionComponents
      ("      <section className=\"py-16 bg-gray-50\">\n" ++
       "        <div className=\"container text-center\">\n" ++
       "          <h2 className=\"text-2xl font-bold text-gray-900\">Explore More</h2>\n" ++
       "          <p className=\"mt-4 text-gray-600\">More content coming soon...</p>\n" ++
       "        </div>\n" ++
       "      </section>")
    "import \x7b Link \x7d from \x27react-router-dom\x27\n" ++
    "import \x7b ROUTES \x7d from \x27@/constants/routes\x27\n" ++
    "import \x7b Button \x7d from \x27@/components/common\x27\n" ++
    (if sectionImports = "" then ""
     else "import \x7b\n" ++ sectionImports ++ "\n\x7d from \x27@/components/sections\x27\n") ++
    "\n" ++
    "\n" ++
    "export default function Home() \x7b\n" ++
    "  return (\n" ++
    "    <div className=\"flex flex-col\">\n" ++
    "      \x7b/* Hero Section */\x7d\n" ++
    "      <section className=\"bg-gradient-to-b from-primary-50 to-white py-20\">\n" ++
    "        <div className=\"container text-center\">\n" ++
    "          <h1 className=\"text-4xl font-bold tracking-tight text-gray-900 sm:text-5xl md:text-6xl\">\n" ++
    "            " ++
    jsOrS parsedContent.title "Welcome" ++
    "\n" ++
    "          </h1>\n" ++
    "          <p className=\"mx-auto mt-6 max-w-2xl text-lg text-gray-600\">\n" ++
    "            " ++
    jsOrS parsedContent.description "A modern TypeScript + React application with everything you need." ++
    "\n" ++
    "          </p>\n" ++
    "          <div className=\"mt-10 flex items-center justify-center gap-4\">\n" ++
    "            <Link to=\x7bROUTES.REGISTER\x7d>\n" ++
    "              <Button size=\"lg\">Get Started</Button>\n" ++
    "            </Link>\n" ++
    "            <Link to=\x7bROUTES.ABOUT\x7d>\n" ++
    "              <Button variant=\"outline\" size=\"lg\">\n" ++
    "                Learn More\n" ++
    "              </Button>\n" ++
    "            </Link>\n" ++
    "          </div>\n" ++
    "        </div>\n" ++
    "      </section>\n" ++
    "\n" ++
    "      \x7b/* Dynamic Sections */\x7d\n" ++
    "      " ++
    sectionsContent ++
    "\n" ++
    "\n" ++
    "      \x7b/* CTA Section */\x7d\n" ++
    "      <section className=\"bg-primary-600 py-16\">\n" ++
    "        <div className=\"container text-center\">\n" ++
    "          <h2 className=\"text-3xl font-bold text-white\">Ready to get started?</h2>\n" ++
    "          <p className=\"mt-4 text-lg text-primary-100\">\n" ++
    "            Join thousands of users of our platform.\n" ++
    "          </p>\n" ++
    "          <Link to=\x7bROUTES.REGISTER\x7d>\n" ++
    "            <Button variant=\"secondary\" size=\"lg\" className=\"mt-8\">\n" ++
    "              Create Free Account\n" ++
    "            </Button>\n" ++
    "          </Link>\n" ++
    "        </div>\n" ++
    "      </section>\n" ++
    "    </div>\n" ++
    "  )\n" ++
    "\x7d\n"
/-- `generateCodebase` from the synthesis engine, restricted to the
artifact list it assembles via `addFile` (the `delay`/`onProgress`/
console/ZIP side channels produce no artifact text):
`projectName = domain.replace(/\./g, "-")`; the AI suggestion set is
stored into `parsedContent.aiSuggestions` exactly as the source does
before generation begins; the files are listed in the exact `addFile`
order of the source, with one `Section<i+1>.tsx` per parsed section. -/
def generateCodebaseRaw (htmlToJsx : String → String) (domain : String)
    (parsedContent0 : GenParsedContent) (aiSuggestions : Option AIAnalysisResult) :
    List GeneratedFile :=
  let projectName := sReplaceAll domain "." "-"
  let parsedContent := { parsedContent0 with aiSuggestions := aiSuggestions }
  let sectionFiles := parsedContent.sections.enum.map (fun p =>
    GeneratedFile.mk ("src/components/sections/Section" ++ toString (p.1 + 1) ++ ".tsx")
      (generateSectionComponentFromContent p.2 (p.1 + 1) parsedContent.colors))
  let sectionExports := String.intercalate "\n"
    ((List.range parsedContent.sections.length).map (fun i =>
      "export \x7b Section" ++ toString (i + 1) ++ " \x7d from \x27./Section" ++
        toString (i + 1) ++ "\x27"))
  let headFiles : List GeneratedFile :=
    [ GeneratedFile.mk "package.json" (generatePackageJson projectName),
    GeneratedFile.mk "tsconfig.json" (generateTsConfig),
    GeneratedFile.mk "tsconfig.node.json" (generateTsConfigNode),
    GeneratedFile.mk "vite.config.ts" (generateViteConfig),
    GeneratedFile.mk "tailwind.config.js" (generateTailwindConfig parsedContent.colors),
    GeneratedFile.mk "postcss.config.js" (postcssConfigText),
    GeneratedFile.mk ".eslintrc.cjs" (generateEslintConfig),
    GeneratedFile.mk ".prettierrc" (prettierrcText),
    GeneratedFile.mk ".gitignore" (generateGitignore),
    GeneratedFile.mk "README.md" (generateReadme projectName domain parsedContent),
    GeneratedFile.mk "index.html" (generateIndexHtml parsedContent.title),
    GeneratedFile.mk "src/main.tsx" (generateMainTsx),
    GeneratedFile.mk "src/App.tsx" (generateAppTsx parsedContent),
    GeneratedFile.mk "src/vite-env.d.ts" (viteEnvText),
    GeneratedFile.mk "src/types/index.ts" (generateTypes),
    GeneratedFile.mk "src/types/api.types.ts" (generateApiTypes),
    GeneratedFile.mk "src/types/user.types.ts" (generateUserTypes),
    GeneratedFile.mk "src/constants/index.ts" (generateConstants domain parsedContent),
    GeneratedFile.mk "src/constants/routes.ts" (generateRouteConstants parsedContent),
    GeneratedFile.mk "src/constants/api.ts" (generateApiConstants domain),
    GeneratedFile.mk "src/utils/index.ts" (generateUtilsIndex),
    GeneratedFile.mk "src/utils/helpers.ts" (generateHelpers),
    GeneratedFile.mk "src/utils/validators.ts" (generateValidators),
    GeneratedFile.mk "src/utils/formatters.ts" (generateFormatters),
    GeneratedFile.mk "src/utils/storage.ts" (generateStorage),
    GeneratedFile.mk "src/utils/logger.ts" (generateLogger),
    GeneratedFile.mk "src/styles/globals.css" (generateGlobalStyles parsedContent.colors),
    GeneratedFile.mk "src/styles/site.css" (generateBundledSiteCss parsedContent),
    GeneratedFile.mk "src/context/ThemeContext.tsx" (generateThemeContext),
    GeneratedFile.mk "src/context/AuthContext.tsx" (generateAuthContext),
    GeneratedFile.mk "src/hooks/useApi.ts" (generateUseApi),
    GeneratedFile.mk "src/hooks/useAuth.ts" (generateUseAuth),
    GeneratedFile.mk "src/services/api.service.ts" (generateApiService domain),
    GeneratedFile.mk "src/services/auth.service.ts" (generateAuthService),
    GeneratedFile.mk "src/components/common/Button.tsx" (generateButtonComponent),
    GeneratedFile.mk "src/components/common/Input.tsx" (generateInputComponent),
    GeneratedFile.mk "src/components/common/Card.tsx" (generateCardComponent),
    GeneratedFile.mk "src/components/common/Modal.tsx" (generateModalComponent),
    GeneratedFile.mk "src/components/common/Loader.tsx" (generateLoaderComponent),
    GeneratedFile.mk "src/components/common/index.ts" (commonComponentsIndexText),
    GeneratedFile.mk "src/components/layout/Header.tsx" (generateHeaderComponentFromContent parsedContent),
    GeneratedFile.mk "src/components/layout/Footer.tsx" (generateFooterComponentFromContent parsedContent),
    GeneratedFile.mk "src/components/layout/Layout.tsx" (generateLayoutComponent) ]
  let tailFiles : List GeneratedFile :=
    [ GeneratedFile.mk "src/components/sections/index.ts" (jsOrS sectionExports "// Sections will be added here"),
    GeneratedFile.mk "src/pages/Home.tsx" (generateHomePageFromContent htmlToJsx parsedContent),
    GeneratedFile.mk "src/pages/NotFound.tsx" (generateNotFoundPage) ]
  headFiles ++ sectionFiles ++ tailFiles

/-- The `(path, text)` artifacts `generateCodebase` packs into the ZIP:
the Zod validate-and-fix pass (`validateAndFixCodebase`) applied to the
assembled artifact list. -/
def generateCodebaseFiles (htmlToJsx : String → String) (domain : String)
    (parsedContent : GenParsedContent) (aiSuggestions : Option AIAnalysisResult) :
    List GeneratedFile :=
  (validateAndFixCodebase
    (generateCodebaseRaw htmlToJsx domain parsedContent aiSuggestions)).files

/-- C5: synthesis is deterministic.  `generateCodebase`'s artifact
sequence is a pure function of the domain and the content model: the
only run-dependent input, the AI suggestion set (the Gemini oracle may
answer differently on every run, and its answer is stored into
`parsedContent.aiSuggestions` before generation), has no influence on
the artifacts at all — for ANY two suggestion sets `s₁ s₂` (in
particular identical ones) the raw artifact list and the
validated-and-fixed `(path, text)` list coincide byte for byte, in the
same order, for every choice of the pure HTML-to-JSX rewriting function.
Hence two runs on identical ContentModel/SuggestionSet inputs produce
byte-identical artifact sequences. -/
theorem c5_synthesis_deterministic (htmlToJsx : String → String) (domain : String)
    (parsedContent : GenParsedContent) (s₁ s₂ : Option AIAnalysisResult) :
    generateCodebaseRaw htmlToJsx domain parsedContent s₁
        = generateCodebaseRaw htmlToJsx domain parsedContent s₂
      ∧ generateCodebaseFiles htmlToJsx domain parsedContent s₁
        = generateCodebaseFiles htmlToJsx domain parsedContent s₂ := by
  cases parsedContent
  exact ⟨rfl, rfl⟩
